import Mathlib

/-!
# IC Notes front end: session, refresh and token-transfer orchestration

A shallow embedding of the orchestration logic of
`src/note-dapp-with-ii-frontend/src/App.jsx` (`initAuth`, `login`, `logout`,
`fetchNotes`, `fetchTokenData`, `checkIcrcLedgerConfig`, `configureIcrcLedger`,
`transferTokens`, the note operations and `formatPrincipal`) together with the JavaScript
primitives it relies on (`String.prototype.trim`, `parseInt`, `Number`, `BigInt`,
the `in` operator, `String.prototype.includes`).

React state is modelled by explicit state passing: every operation maps the state
it was started in to an `Outcome` holding the state after all its `set…` calls,
the remote calls it issued (oldest first) and the exception that escaped it, if any.
The backend actor, the `@dfinity/principal` library and the identity provider are
outside the repository and are taken as parameters (`Actor`, `Runtime`,
`Provider`).
-/

namespace IcNotes

/-! ## JavaScript primitives -/

/-- The code points that ECMAScript treats as `WhiteSpace` or `LineTerminator`;
these are the ones removed by `trim()` and skipped by `parseInt`. -/
def isJsWhiteSpace (c : Char) : Bool :=
  let n := c.toNat
  n == 0x09 || n == 0x0A || n == 0x0B || n == 0x0C || n == 0x0D || n == 0x20 ||
  n == 0xA0 || n == 0x1680 || (0x2000 ≤ n && n ≤ 0x200A) || n == 0x2028 ||
  n == 0x2029 || n == 0x202F || n == 0x205F || n == 0x3000 || n == 0xFEFF

/-- `String.prototype.trim` on a list of characters. -/
def jsTrimChars (cs : List Char) : List Char :=
  ((cs.dropWhile isJsWhiteSpace).reverse.dropWhile isJsWhiteSpace).reverse

/-- `String.prototype.trim`. -/
def jsTrim (s : String) : String := String.mk (jsTrimChars s.toList)

/-- JavaScript truthiness of a string: the empty string is the only falsy one. -/
def truthy (s : String) : Bool := !s.toList.isEmpty

/-- `String.prototype.includes` on lists of characters. -/
def includesChars (pat : List Char) : List Char → Bool
  | [] => pat.isEmpty
  | c :: cs => pat.isPrefixOf (c :: cs) || includesChars pat cs

/-- `s.includes(pat)`. -/
def jsIncludes (s pat : String) : Bool := includesChars pat.toList s.toList

/-- The values of the JavaScript `Number` type that occur in this program:
`NaN`, the two infinities and the integer-valued doubles (`-0` is identified
with `0`; the program only compares numbers and converts them to `BigInt`,
which cannot distinguish the two). -/
inductive JSNumber where
  | nan
  | negInf
  | fin (i : Int)
  | posInf
  deriving DecidableEq, Repr

/-- The 53-bit significand of `n ≥ 2 ^ 53` after dropping its `e` lowest bits,
rounded to nearest with ties to even. -/
def roundHalfEven (n e : Nat) : Nat :=
  let q := n / 2 ^ e
  let r := n % 2 ^ e
  let half := 2 ^ (e - 1)
  if half < r || (r == half && q % 2 == 1) then q + 1 else q

/-- The least natural number that converts to `Infinity`, before rounding. -/
def doubleOverflow : Nat := 2 ^ 1024

/-- Rounding of a natural number to the nearest IEEE-754 double (ties to even),
overflowing to `Infinity`: `Number(n)` for a non-negative `BigInt` `n`, and the
last step of `parseInt`. -/
def toDouble (n : Nat) : JSNumber :=
  if n < 2 ^ 53 then .fin n
  else
    let e := Nat.log2 n - 52
    let v := roundHalfEven n e * 2 ^ e
    if doubleOverflow ≤ v then .posInf else .fin v

/-- Unary minus on `Number`. -/
def JSNumber.neg : JSNumber → JSNumber
  | .nan => .nan
  | .negInf => .posInf
  | .fin i => .fin (-i)
  | .posInf => .negInf

/-- The global `isNaN` on a `Number`. -/
def JSNumber.isNaN : JSNumber → Bool
  | .nan => true
  | _ => false

/-- The comparison `x <= 0` on a `Number` (`false` for `NaN`). -/
def JSNumber.leZero : JSNumber → Bool
  | .nan => false
  | .negInf => true
  | .fin i => decide (i ≤ 0)
  | .posInf => false

/-- The value of a digit in the given radix (10 or 16), if it is one. -/
def digitValue (radix : Nat) (c : Char) : Option Nat :=
  let n := c.toNat
  if 48 ≤ n && n ≤ 57 then some (n - 48)
  else if radix == 16 && 97 ≤ n && n ≤ 102 then some (n - 87)
  else if radix == 16 && 65 ≤ n && n ≤ 70 then some (n - 55)
  else none

/-- The longest prefix of radix digits, as digit values. -/
def takeDigits (radix : Nat) : List Char → List Nat
  | [] => []
  | c :: cs =>
    match digitValue radix c with
    | some d => d :: takeDigits radix cs
    | none => []

/-- The integer written by a list of digit values, most significant first. -/
def digitsValue (radix : Nat) (ds : List Nat) : Nat :=
  ds.foldl (fun acc d => acc * radix + d) 0

/-- Sign handling of `parseInt`: a leading `-` or `+` is removed, `-` negates. -/
def splitSign : List Char → Bool × List Char
  | [] => (false, [])
  | c :: cs =>
    if c = '-' then (true, cs)
    else if c = '+' then (false, cs)
    else (false, c :: cs)

/-- Radix detection of `parseInt` called without a radix: a leading `0x` or `0X`
is removed and selects radix 16, otherwise the radix is 10. -/
def splitRadix : List Char → Nat × List Char
  | c :: d :: cs =>
    if c = '0' ∧ (d = 'x' ∨ d = 'X') then (16, cs) else (10, c :: d :: cs)
  | cs => (10, cs)

/-- The global `parseInt(string)` (no radix argument): leading white space is
skipped, then an optional sign, then an optional `0x`/`0X`, then the longest run
of digits is read; anything after it is ignored. No digit at all gives `NaN`.
The digits are read exactly and the integer is rounded once, as V8 and
SpiderMonkey do (the standard lets an engine zero the decimal digits after the
20th significant one). -/
def parseInt (s : String) : JSNumber :=
  let trimmed := s.toList.dropWhile isJsWhiteSpace
  let signed := splitSign trimmed
  let based := splitRadix signed.2
  let ds := takeDigits based.1 based.2
  if ds.isEmpty then .nan
  else
    let v := toDouble (digitsValue based.1 ds)
    if signed.1 then v.neg else v

/-- The conversion `BigInt(x)` of a `Number`: a `RangeError` for `NaN` and the
infinities, the integer itself otherwise. -/
def toBigInt : JSNumber → Except String Int
  | .fin i => .ok i
  | .nan => .error "The number NaN cannot be converted to a BigInt because it is not an integer"
  | .posInf => .error "The number Infinity cannot be converted to a BigInt because it is not an integer"
  | .negInf => .error "The number -Infinity cannot be converted to a BigInt because it is not an integer"

/-- The operand on the right of `BigInt(amount) > availableBalance`: the state
variable `icrcBalance` (`null` or a `BigInt`) or `balance` (a `Number`). -/
inductive JSValue where
  | null
  | bigint (i : Int)
  | number (x : JSNumber)
  deriving DecidableEq, Repr

/-- The relational comparison `a > v` for a `BigInt` `a`: mathematical comparison
against a `BigInt` or a finite `Number`, `null` converts to `0`, `NaN` compares
`false`. -/
def bigintGt (a : Int) : JSValue → Bool
  | .null => decide (0 < a)
  | .bigint b => decide (b < a)
  | .number .nan => false
  | .number .negInf => true
  | .number (.fin b) => decide (b < a)
  | .number .posInf => false

/-! ## Data model -/

/-- A principal of the backend's authorisation model, identified by its
canonical text form (`toText()`). -/
structure Principal where
  toText : String
  deriving DecidableEq, Repr

/-- A note as returned by the backend: `(id, content)`. -/
structure Note where
  id : Nat
  content : String
  deriving DecidableEq, Repr

/-- The two ledgers a transfer can target; the radio buttons of the transfer
form are the only writers of `transferType` and offer exactly these values. -/
inductive TransferType where
  | internal
  | icrc
  deriving DecidableEq, Repr

/-- `transferType.toUpperCase()`. -/
def TransferType.toUpperCase : TransferType → String
  | .internal => "INTERNAL"
  | .icrc => "ICRC"

/-- A record of the transaction history, produced by the backend and only
displayed by the client. -/
structure TransactionRecord where
  sender : Principal
  receiver : Principal
  amount : Nat
  timestamp : Nat
  kind : TransferType
  blockIndex : Option Nat
  deriving DecidableEq, Repr

/-- The error variant carried by an `Err` result of a transfer: a Candid variant,
that is an object with the single key `tag`; `message` is the `message` field of
the record under that key (read for the `GenericError` tag only, whose payload
is the record `{ error_code, message }`). -/
structure TransferError where
  tag : String
  message : String
  deriving DecidableEq, Repr

/-- The value a transfer call resolves to: a variant object exposing `Ok`, a
variant object exposing `Err`, or a primitive string. -/
inductive TransferResult where
  | Ok
  | Err (error : TransferError)
  | text (s : String)
  deriving DecidableEq, Repr

/-- The value `get_icrc_balance` resolves to: `{ Ok: nat }` or `{ Err: … }`. -/
inductive IcrcBalanceResult where
  | Ok (value : Nat)
  | Err (error : String)
  deriving DecidableEq, Repr

/-- The value `set_icrc_ledger_canister_id` resolves to: `{ Ok }`, `{ Err }` or
`undefined`. -/
inductive ConfigResult where
  | Ok
  | Err (error : String)
  | undefined
  deriving DecidableEq, Repr

/-- The remote operations of the backend actor, with their arguments. -/
inductive RemoteCall where
  | get_notes
  | add_note (content : String)
  | update_note (id : Nat) (content : String)
  | delete_note (id : Nat)
  | search_notes (query : String)
  | get_balance
  | get_transaction_history
  | get_icrc_balance
  | get_icrc_ledger_canister_id
  | set_icrc_ledger_canister_id (ledger : Principal)
  | transfer (recipient : Principal) (amount : Int)
  | icrc_transfer (recipient : Principal) (amount : Int)
  deriving DecidableEq, Repr

/-- The backend actor (`createActor(canisterId, …)`), which lives outside the
repository: for each remote method, what awaiting the call yields, either a
value (`.ok`) or a thrown error with its message (`.error`). No operation of the
client invokes the same method twice, so one answer per method and argument
covers every behaviour of the backend during one operation. -/
structure Actor where
  get_notes : Except String (List Note)
  add_note : String → Except String Unit
  update_note : Nat → String → Except String Unit
  delete_note : Nat → Except String Unit
  search_notes : String → Except String (List Note)
  get_balance : Except String Nat
  get_transaction_history : Except String (List TransactionRecord)
  get_icrc_balance : Except String IcrcBalanceResult
  get_icrc_ledger_canister_id : Except String (Option Principal)
  set_icrc_ledger_canister_id : Principal → Except String ConfigResult
  transfer : Principal → Int → Except String TransferResult
  icrc_transfer : Principal → Int → Except String TransferResult

/-- What the JavaScript environment contributes besides the language itself:
`Principal.fromText` of `@dfinity/principal` (a principal, or a thrown error with
its message) and the message of the `TypeError` raised by `key in value` when
`value` is a primitive string or `undefined`, given the text of `value` (its
wording differs between engines). -/
structure Runtime where
  fromText : String → Except String Principal
  inOperatorMessage : String → String → String

/-- An `AuthClient` of `@dfinity/auth-client` as `App` uses it: the principal of
the identity it holds (`getIdentity().getPrincipal()`) and what awaiting its
methods yields. `login` resolves to whether the interactive flow was completed,
in which case the `onSuccess` callback is invoked, or abandoned. -/
structure AuthClient where
  identity : Principal
  isAuthenticated : Except String Bool
  login : Except String Bool
  logout : Except String Unit

/-- The identity and actor provider at one moment: what `AuthClient.create()`
resolves to, and the actor `createActor` binds to an identity. -/
structure Provider where
  create : Except String AuthClient
  createActor : Principal → Except String Actor

/-- The React state of `App` (the `useState` cells that the orchestration logic
reads or writes). -/
structure State where
  authClient : Option AuthClient
  actor : Option Actor
  principal : String
  isAuthenticated : Bool
  notes : List Note
  newNote : String
  searchQuery : String
  editingNoteId : Option Nat
  editingContent : String
  isLoading : Bool
  showAddNote : Bool
  balance : JSNumber
  icrcBalance : Option Int
  transferTo : String
  transferAmount : String
  transactionHistory : List TransactionRecord
  showTokenSection : Bool
  showTransferForm : Bool
  transferStatus : String
  transferType : TransferType
  icrcLedgerCanisterId : String
  showLedgerConfig : Bool

/-- The state `App` starts in (the arguments of its `useState` calls). -/
def State.initial : State where
  authClient := none
  actor := none
  principal := ""
  isAuthenticated := false
  notes := []
  newNote := ""
  searchQuery := ""
  editingNoteId := none
  editingContent := ""
  isLoading := false
  showAddNote := false
  balance := .fin 0
  icrcBalance := none
  transferTo := ""
  transferAmount := ""
  transactionHistory := []
  showTokenSection := false
  showTransferForm := false
  transferStatus := ""
  transferType := .internal
  icrcLedgerCanisterId := ""
  showLedgerConfig := false

/-- The result of running an asynchronous operation to completion: the state
after its updates, the remote calls it issued in order, and the message of the
error it rejected with (`none` when it resolved). -/
structure Outcome where
  state : State
  calls : List RemoteCall
  raised : Option String

/-! ## Token operations -/

/-- `fetchTokenData(backendActor)`, lines 141-166. -/
def fetchTokenData (backendActor : Option Actor) (s : State) : Outcome :=
  match backendActor with
  | none => ⟨s, [], none⟩
  | some actor =>
    match actor.get_balance with
    | .error _ => ⟨s, [.get_balance], none⟩
    | .ok userBalance =>
      let s1 := { s with balance := toDouble userBalance }
      match actor.get_transaction_history with
      | .error _ => ⟨s1, [.get_balance, .get_transaction_history], none⟩
      | .ok history =>
        let s2 := { s1 with transactionHistory := history }
        let calls := [.get_balance, .get_transaction_history, .get_icrc_balance]
        match actor.get_icrc_balance with
        | .error _ => ⟨{ s2 with icrcBalance := none }, calls, none⟩
        | .ok (.Ok value) => ⟨{ s2 with icrcBalance := some (value : Int) }, calls, none⟩
        | .ok (.Err _) => ⟨s2, calls, none⟩

/-- The expression `key in result` for the value a transfer call resolved to:
a `TypeError` when `result` is a primitive string. -/
def TransferResult.hasKey (rt : Runtime) (key : String) : TransferResult → Except String Bool
  | .Ok => .ok (key == "Ok")
  | .Err _ => .ok (key == "Err")
  | .text s => .error (rt.inOperatorMessage key s)

/-- The expression `typeof result === 'string'`. -/
def TransferResult.isString : TransferResult → Bool
  | .text _ => true
  | _ => false

/-- The status chosen for the payload of an `Err` result, lines 252-263. -/
def errStatus (error : TransferError) : String :=
  if error.tag == "InsufficientBalance" || error.tag == "InsufficientFunds" then
    "Insufficient balance"
  else if error.tag == "Unauthorized" then
    "Unauthorized transfer"
  else if error.tag == "InvalidReceiver" then
    "Invalid receiver principal"
  else if error.tag == "GenericError" then
    "Transfer failed: " ++ error.message
  else
    "Transfer failed"

/-- The status chosen by the `catch` block for an error message, lines 267-271. -/
def catchStatus (message : String) : String :=
  if jsIncludes message "Invalid principal" then "Invalid principal format"
  else "Transfer failed: " ++ message

/-- The remote call selected by `transferType`, lines 239-243. -/
def transferCall (t : TransferType) (recipient : Principal) (amount : Int) : RemoteCall :=
  if t = .icrc then .icrc_transfer recipient amount else .transfer recipient amount

/-- What awaiting the selected transfer call yields. -/
def transferReply (actor : Actor) (t : TransferType) (recipient : Principal) (amount : Int) :
    Except String TransferResult :=
  if t = .icrc then actor.icrc_transfer recipient amount else actor.transfer recipient amount

/-- The interpretation of the value the transfer call resolved to, lines
245-264; `raised` holds the error thrown inside the `try` block, if any. -/
def interpretResult (rt : Runtime) (s : State) (result : TransferResult) : Outcome :=
  match result.hasKey rt "Ok" with
  | .error m => ⟨s, [], some m⟩
  | .ok inOk =>
    if inOk || result.isString then
      let s1 := { s with
        transferStatus := s.transferType.toUpperCase ++ " transfer successful!"
        transferTo := ""
        transferAmount := ""
        showTransferForm := false }
      fetchTokenData s.actor s1
    else
      match result.hasKey rt "Err" with
      | .error m => ⟨s, [], some m⟩
      | .ok inErr =>
        if inErr then
          match result with
          | .Err error => ⟨{ s with transferStatus := errStatus error }, [], none⟩
          | _ => ⟨s, [], none⟩
        else ⟨s, [], none⟩

/-- The body of the `try` block of `transferTokens`, lines 236-264; `raised`
holds the error thrown inside the block, if any. -/
def transferTry (rt : Runtime) (actor : Actor) (s : State) (amount : Int) : Outcome :=
  match rt.fromText (jsTrim s.transferTo) with
  | .error m => ⟨s, [], some m⟩
  | .ok toPrincipal =>
    match transferReply actor s.transferType toPrincipal amount with
    | .error m => ⟨s, [transferCall s.transferType toPrincipal amount], some m⟩
    | .ok result =>
      let r := interpretResult rt s result
      ⟨r.state, transferCall s.transferType toPrincipal amount :: r.calls, r.raised⟩

/-- The operand `availableBalance`, line 220. -/
def availableBalance (s : State) : JSValue :=
  if s.transferType = .icrc then
    match s.icrcBalance with
    | none => .null
    | some b => .bigint b
  else .number s.balance

/-- The `catch` block of `transferTokens` followed by the closing
`setIsLoading(false)`, lines 265-273, applied to the outcome of the `try` block. -/
def settleTransfer (r : Outcome) : Outcome :=
  match r.raised with
  | none => ⟨{ r.state with isLoading := false }, r.calls, none⟩
  | some m =>
    ⟨{ r.state with transferStatus := catchStatus m, isLoading := false }, r.calls, none⟩

/-- `transferTokens()`, lines 207-274. -/
def transferTokens (rt : Runtime) (s : State) : Outcome :=
  match s.actor with
  | none => ⟨{ s with transferStatus := "Please fill in all fields" }, [], none⟩
  | some actor =>
    if !truthy (jsTrim s.transferTo) || !truthy (jsTrim s.transferAmount) then
      ⟨{ s with transferStatus := "Please fill in all fields" }, [], none⟩
    else
      let amount := parseInt s.transferAmount
      if amount.isNaN || amount.leZero then
        ⟨{ s with transferStatus := "Please enter a valid amount" }, [], none⟩
      else if s.transferType = .icrc && s.icrcBalance.isNone then
        ⟨{ s with transferStatus := "ICRC balance not available. Please configure ICRC ledger." },
          [], none⟩
      else
        match toBigInt amount with
        | .error m => ⟨s, [], some m⟩
        | .ok big =>
          if bigintGt big (availableBalance s) then
            ⟨{ s with transferStatus := "Insufficient balance" }, [], none⟩
          else
            settleTransfer (transferTry rt actor { s with isLoading := true, transferStatus := "" } big)

/-! ## Notes, ledger configuration and session operations -/

/-- `fetchNotes(backendActor)`, lines 130-138. -/
def fetchNotes (backendActor : Option Actor) (s : State) : Outcome :=
  match backendActor with
  | none => ⟨s, [], none⟩
  | some actor =>
    match actor.get_notes with
    | .error _ => ⟨s, [.get_notes], none⟩
    | .ok result => ⟨{ s with notes := result }, [.get_notes], none⟩

/-- `checkIcrcLedgerConfig(backendActor)`, lines 168-178; the optional principal
the backend returns is the Candid `opt`, an array with at most one element. -/
def checkIcrcLedgerConfig (backendActor : Option Actor) (s : State) : Outcome :=
  match backendActor with
  | none => ⟨s, [], none⟩
  | some actor =>
    match actor.get_icrc_ledger_canister_id with
    | .error _ => ⟨s, [.get_icrc_ledger_canister_id], none⟩
    | .ok none => ⟨s, [.get_icrc_ledger_canister_id], none⟩
    | .ok (some ledgerId) =>
      ⟨{ s with icrcLedgerCanisterId := ledgerId.toText }, [.get_icrc_ledger_canister_id], none⟩

/-- The expression `key in result` for the value `set_icrc_ledger_canister_id`
resolved to: a `TypeError` when `result` is `undefined`. -/
def ConfigResult.hasKey (rt : Runtime) (key : String) : ConfigResult → Except String Bool
  | .Ok => .ok (key == "Ok")
  | .Err _ => .ok (key == "Err")
  | .undefined => .error (rt.inOperatorMessage key "undefined")

/-- The expression `result === undefined`. -/
def ConfigResult.isUndefined : ConfigResult → Bool
  | .undefined => true
  | _ => false

/-- The body of the `try` block of `configureIcrcLedger`, lines 190-199; `raised`
holds the error thrown inside the block, if any. -/
def configureTry (rt : Runtime) (actor : Actor) (s : State) : Outcome :=
  match rt.fromText (jsTrim s.icrcLedgerCanisterId) with
  | .error m => ⟨s, [], some m⟩
  | .ok ledgerPrincipal =>
    match actor.set_icrc_ledger_canister_id ledgerPrincipal with
    | .error m => ⟨s, [.set_icrc_ledger_canister_id ledgerPrincipal], some m⟩
    | .ok result =>
      match result.hasKey rt "Ok" with
      | .error m => ⟨s, [.set_icrc_ledger_canister_id ledgerPrincipal], some m⟩
      | .ok inOk =>
        if inOk || result.isUndefined then
          let s1 := { s with
            transferStatus := "ICRC ledger configured successfully!"
            showLedgerConfig := false }
          let r := fetchTokenData s.actor s1
          ⟨r.state, .set_icrc_ledger_canister_id ledgerPrincipal :: r.calls, r.raised⟩
        else
          ⟨{ s with transferStatus := "Failed to configure ICRC ledger" },
            [.set_icrc_ledger_canister_id ledgerPrincipal], none⟩

/-- The `catch` block of `configureIcrcLedger` followed by the closing
`setIsLoading(false)`, lines 200-204, applied to the outcome of the `try` block. -/
def settleConfigure (r : Outcome) : Outcome :=
  match r.raised with
  | none => ⟨{ r.state with isLoading := false }, r.calls, none⟩
  | some _ =>
    ⟨{ r.state with transferStatus := "Invalid canister ID format", isLoading := false },
      r.calls, none⟩

/-- `configureIcrcLedger()`, lines 180-205. -/
def configureIcrcLedger (rt : Runtime) (s : State) : Outcome :=
  match s.actor with
  | none => ⟨{ s with transferStatus := "Please enter a valid canister ID" }, [], none⟩
  | some actor =>
    if !truthy (jsTrim s.icrcLedgerCanisterId) then
      ⟨{ s with transferStatus := "Please enter a valid canister ID" }, [], none⟩
    else
      settleConfigure (configureTry rt actor { s with isLoading := true, transferStatus := "" })

/-- `addNote()`, lines 288-300. -/
def addNote (s : State) : Outcome :=
  match s.actor with
  | none => ⟨s, [], none⟩
  | some actor =>
    if !truthy (jsTrim s.newNote) then ⟨s, [], none⟩
    else
      match actor.add_note (jsTrim s.newNote) with
      | .error _ => ⟨{ s with isLoading := false }, [.add_note (jsTrim s.newNote)], none⟩
      | .ok _ =>
        let r := fetchNotes s.actor { s with isLoading := true, newNote := "", showAddNote := false }
        ⟨{ r.state with isLoading := false }, .add_note (jsTrim s.newNote) :: r.calls, none⟩

/-- `deleteNote(id)`, lines 302-312. -/
def deleteNote (id : Nat) (s : State) : Outcome :=
  match s.actor with
  | none => ⟨s, [], none⟩
  | some actor =>
    match actor.delete_note id with
    | .error _ => ⟨{ s with isLoading := false }, [.delete_note id], none⟩
    | .ok _ =>
      let r := fetchNotes s.actor { s with isLoading := true }
      ⟨{ r.state with isLoading := false }, .delete_note id :: r.calls, none⟩

/-- `startEditing(id, content)`, lines 314-317. -/
def startEditing (id : Nat) (content : String) (s : State) : State :=
  { s with editingNoteId := some id, editingContent := content }

/-- `updateNote()`, lines 319-331. -/
def updateNote (s : State) : Outcome :=
  match s.actor, s.editingNoteId with
  | none, _ => ⟨s, [], none⟩
  | some _, none => ⟨s, [], none⟩
  | some actor, some id =>
    match actor.update_note id s.editingContent with
    | .error _ => ⟨{ s with isLoading := false }, [.update_note id s.editingContent], none⟩
    | .ok _ =>
      let r := fetchNotes s.actor
        { s with isLoading := true, editingNoteId := none, editingContent := "" }
      ⟨{ r.state with isLoading := false }, .update_note id s.editingContent :: r.calls, none⟩

/-- `searchNotes()`, lines 333-348. -/
def searchNotes (s : State) : Outcome :=
  match s.actor with
  | none => ⟨s, [], none⟩
  | some actor =>
    if !truthy (jsTrim s.searchQuery) then
      let r := fetchNotes s.actor { s with isLoading := true }
      ⟨{ r.state with isLoading := false }, r.calls, none⟩
    else
      match actor.search_notes (jsTrim s.searchQuery) with
      | .error _ => ⟨{ s with isLoading := false }, [.search_notes (jsTrim s.searchQuery)], none⟩
      | .ok result =>
        ⟨{ s with notes := result, isLoading := false },
          [.search_notes (jsTrim s.searchQuery)], none⟩

/-- `initAuth()`, lines 76-114, run against the provider `p`. Every error
thrown inside the `try` block is caught and logged; the `finally` block clears
the busy flag. -/
def initAuth (p : Provider) (s : State) : Outcome :=
  match p.create with
  | .error _ => ⟨{ s with isLoading := false }, [], none⟩
  | .ok client =>
    match client.isAuthenticated with
    | .error _ => ⟨{ s with isLoading := false }, [], none⟩
    | .ok isAuth =>
      match p.createActor client.identity with
      | .error _ => ⟨{ s with isLoading := false }, [], none⟩
      | .ok backendActor =>
        let s1 := { s with
          isLoading := true
          authClient := some client
          actor := some backendActor
          isAuthenticated := isAuth }
        if isAuth then
          let r1 := fetchNotes (some backendActor)
            { s1 with principal := client.identity.toText }
          let r2 := fetchTokenData (some backendActor) r1.state
          let r3 := checkIcrcLedgerConfig (some backendActor) r2.state
          ⟨{ r3.state with isLoading := false }, r1.calls ++ r2.calls ++ r3.calls, none⟩
        else ⟨{ s1 with isLoading := false }, [], none⟩

/-- The message of the `TypeError` raised by calling a method of `authClient`
while that state cell is still `null`, in V8's wording. -/
def nullPropertyMessage (method : String) : String :=
  "Cannot read properties of null (reading " ++ String.singleton (Char.ofNat 39) ++ method ++
    String.singleton (Char.ofNat 39) ++ ")"

/-- `login()`, lines 116-122; `p` is the provider as it is once the interactive
flow has ended, against which the `onSuccess` callback `initAuth` runs. -/
def login (p : Provider) (s : State) : Outcome :=
  match s.authClient with
  | none => ⟨{ s with isLoading := true }, [], some (nullPropertyMessage "login")⟩
  | some client =>
    match client.login with
    | .error m => ⟨{ s with isLoading := true }, [], some m⟩
    | .ok completed =>
      if completed then initAuth p { s with isLoading := true }
      else ⟨{ s with isLoading := true }, [], none⟩

/-- `logout()`, lines 124-128; `p` is the provider as it is after
`authClient.logout()`, against which `initAuth` runs. -/
def logout (p : Provider) (s : State) : Outcome :=
  match s.authClient with
  | none => ⟨{ s with isLoading := true }, [], some (nullPropertyMessage "logout")⟩
  | some client =>
    match client.logout with
    | .error m => ⟨{ s with isLoading := true }, [], some m⟩
    | .ok _ => initAuth p { s with isLoading := true }

/-! ## Pre-flight validation -/

/-- The request held in state `s` passes checks a-d of the pre-flight validation
with the bound actor `actor` and the parsed amount `amount`: both fields are
non-blank, the amount text parses to the positive integer `amount`, the external
balance is present when the external ledger is selected, and `amount` does not
exceed the balance of the selected ledger. -/
structure PassesChecks (s : State) (actor : Actor) (amount : Int) : Prop where
  bound : s.actor = some actor
  recipientGiven : truthy (jsTrim s.transferTo) = true
  amountGiven : truthy (jsTrim s.transferAmount) = true
  parsed : parseInt s.transferAmount = .fin amount
  positive : 0 < amount
  ledger : s.transferType = .icrc → s.icrcBalance ≠ none
  covered : bigintGt amount (availableBalance s) = false

/-- The request passes the whole pre-flight validation: checks a-d, and the
trimmed recipient parses to the principal `recipient` (check e). -/
structure PassesPreflight (rt : Runtime) (s : State) (actor : Actor)
    (recipient : Principal) (amount : Int) : Prop where
  checks : PassesChecks s actor amount
  wellFormed : rt.fromText (jsTrim s.transferTo) = .ok recipient

/-- The state in which the `try` block of `transferTokens` starts. -/
def State.dispatching (s : State) : State :=
  { s with isLoading := true, transferStatus := "" }

/-- Follows the spec's words ("a base-10 integer literal"): the integer denoted
by a text that consists of an optional sign followed by one or more decimal
digits and nothing else; `none` for every other text. -/
def decimalLiteral (s : String) : Option Int :=
  let signed := splitSign s.toList
  if signed.2.isEmpty || !signed.2.all (fun c => (digitValue 10 c).isSome) then none
  else
    let n : Int := digitsValue 10 (takeDigits 10 signed.2)
    some (if signed.1 then -n else n)

/-! ## Sample environment -/

/-- A runtime in which every text parses as a principal; the `TypeError` of the
`in` operator is worded as V8 words it. -/
def Runtime.sample : Runtime where
  fromText := fun t => .ok ⟨t⟩
  inOperatorMessage := fun key v =>
    "Cannot use " ++ String.singleton (Char.ofNat 39) ++ "in" ++
      String.singleton (Char.ofNat 39) ++ " operator to search for " ++
      String.singleton (Char.ofNat 39) ++ key ++ String.singleton (Char.ofNat 39) ++
      " in " ++ v

/-- A runtime whose `Principal.fromText` rejects every text with the given
message. -/
def Runtime.rejecting (message : String) : Runtime where
  fromText := fun _ => .error message
  inOperatorMessage := Runtime.sample.inOperatorMessage

/-- A backend actor that accepts every call: balance 75, an empty history, an
external balance of 20. -/
def Actor.sample : Actor where
  get_notes := .ok []
  add_note := fun _ => .ok ()
  update_note := fun _ _ => .ok ()
  delete_note := fun _ => .ok ()
  search_notes := fun _ => .ok []
  get_balance := .ok 75
  get_transaction_history := .ok []
  get_icrc_balance := .ok (.Ok 20)
  get_icrc_ledger_canister_id := .ok none
  set_icrc_ledger_canister_id := fun _ => .ok .Ok
  transfer := fun _ _ => .ok .Ok
  icrc_transfer := fun _ _ => .ok .Ok

/-- A signed-in state with an internal balance of 100, no external balance and
the transfer form filled in with the given recipient and amount texts. -/
def State.sample (actor : Actor) (recipient amount : String) : State :=
  { State.initial with
    actor := some actor
    isAuthenticated := true
    balance := .fin 100
    transferTo := recipient
    transferAmount := amount
    showTransferForm := true }

/-- An `AuthClient` whose calls all succeed: it holds the identity `w7x7r-cok77-xa`
when authenticated and the anonymous identity `2vxsx-fae` otherwise. -/
def AuthClient.sample (isAuth : Bool) : AuthClient where
  identity := ⟨if isAuth then "w7x7r-cok77-xa" else "2vxsx-fae"⟩
  isAuthenticated := .ok isAuth
  login := .ok true
  logout := .ok ()

/-- A provider whose calls all succeed and which binds `Actor.sample` to every
identity. -/
def Provider.sample (isAuth : Bool) : Provider where
  create := .ok (AuthClient.sample isAuth)
  createActor := fun _ => .ok Actor.sample

/-- A backend actor like `Actor.sample` that holds one note, one transaction
record and a configured external ledger. -/
def Actor.stocked : Actor :=
  { Actor.sample with
    get_notes := .ok [⟨1, "milk"⟩]
    get_transaction_history :=
      .ok [⟨⟨"w7x7r-cok77-xa"⟩, ⟨"aaaaa-aa"⟩, 25, 1700000000, .internal, none⟩]
    get_icrc_ledger_canister_id := .ok (some ⟨"ryjl3-tyaaa-aaaaa-aaaba-cai"⟩) }

/-- A provider whose calls all succeed, which reports the identity as
authenticated and binds `Actor.stocked` to it. -/
def Provider.stocked : Provider where
  create := .ok (AuthClient.sample true)
  createActor := fun _ => .ok Actor.stocked

/-! ## Sequences of operations -/

/-- The state updates made directly by the event handlers of the markup (the
`onChange` and `onClick` handlers that call a `set…` function themselves). -/
inductive FormInput where
  | toggleTokenSection
  | toggleLedgerConfig
  | ledgerId (text : String)
  | toggleTransferForm
  | transferType (t : TransferType)
  | transferTo (text : String)
  | transferAmount (text : String)
  | searchQuery (text : String)
  | toggleAddNote
  | closeAddNote
  | newNote (text : String)
  | editingContent (text : String)
  | cancelEditing

/-- The effect of a form input on the state. -/
def FormInput.apply : FormInput → State → State
  | .toggleTokenSection, s => { s with showTokenSection := !s.showTokenSection }
  | .toggleLedgerConfig, s => { s with showLedgerConfig := !s.showLedgerConfig }
  | .ledgerId text, s => { s with icrcLedgerCanisterId := text }
  | .toggleTransferForm, s => { s with showTransferForm := !s.showTransferForm }
  | .transferType t, s => { s with transferType := t }
  | .transferTo text, s => { s with transferTo := text }
  | .transferAmount text, s => { s with transferAmount := text }
  | .searchQuery text, s => { s with searchQuery := text }
  | .toggleAddNote, s => { s with showAddNote := !s.showAddNote }
  | .closeAddNote, s => { s with showAddNote := false }
  | .newNote text, s => { s with newNote := text }
  | .editingContent text, s => { s with editingContent := text }
  | .cancelEditing, s => { s with editingNoteId := none }

/-- One thing that can happen to `App`: a session operation run against the
provider as it is at that moment, a data operation run against the runtime and
the actor held in the state, or a form input. -/
inductive Action where
  | initAuth (p : Provider)
  | login (p : Provider)
  | logout (p : Provider)
  | fetchNotes
  | fetchTokenData
  | checkIcrcLedgerConfig
  | configureIcrcLedger (rt : Runtime)
  | transferTokens (rt : Runtime)
  | addNote
  | deleteNote (id : Nat)
  | startEditing (id : Nat) (content : String)
  | updateNote
  | searchNotes
  | input (i : FormInput)

/-- The state after an action has run to completion. -/
def Action.step : Action → State → State
  | .initAuth p, s => (IcNotes.initAuth p s).state
  | .login p, s => (IcNotes.login p s).state
  | .logout p, s => (IcNotes.logout p s).state
  | .fetchNotes, s => (IcNotes.fetchNotes s.actor s).state
  | .fetchTokenData, s => (IcNotes.fetchTokenData s.actor s).state
  | .checkIcrcLedgerConfig, s => (IcNotes.checkIcrcLedgerConfig s.actor s).state
  | .configureIcrcLedger rt, s => (IcNotes.configureIcrcLedger rt s).state
  | .transferTokens rt, s => (IcNotes.transferTokens rt s).state
  | .addNote, s => (IcNotes.addNote s).state
  | .deleteNote id, s => (IcNotes.deleteNote id s).state
  | .startEditing id content, s => IcNotes.startEditing id content s
  | .updateNote, s => (IcNotes.updateNote s).state
  | .searchNotes, s => (IcNotes.searchNotes s).state
  | .input i, s => i.apply s

/-- The state after a sequence of actions, run one after the other. -/
def run (actions : List Action) (s : State) : State :=
  actions.foldl (fun st a => a.step st) s

/-- The state `t` holds the same session as `s`: the same client, the same actor
and the same authentication flag. -/
def SameSession (s t : State) : Prop :=
  t.authClient = s.authClient ∧ t.actor = s.actor ∧ t.isAuthenticated = s.isAuthenticated

/-- The outcome of the three steps of `initAuth` that precede its state
updates: the client, the authentication flag and the actor, or `none` when one
of the steps throws. -/
def Provider.session (p : Provider) : Option (AuthClient × Bool × Actor) :=
  match p.create with
  | .error _ => none
  | .ok client =>
    match client.isAuthenticated with
    | .error _ => none
    | .ok isAuth =>
      match p.createActor client.identity with
      | .error _ => none
      | .ok backendActor => some (client, isAuth, backendActor)

/-- Whether a remote call is one of the two transfer operations. -/
def RemoteCall.isTransfer : RemoteCall → Bool
  | .transfer _ _ => true
  | .icrc_transfer _ _ => true
  | _ => false

/-! ## Formatting -/

/-- A JavaScript string as the sequence of its UTF-16 code units: `length` counts
code units and `slice` cuts between them. -/
abbrev CodeUnits := List Nat

/-- The UTF-16 code units of a character: one for the Basic Multilingual Plane,
a surrogate pair above it. -/
def Char.codeUnits (c : Char) : CodeUnits :=
  if c.toNat < 0x10000 then [c.toNat]
  else [0xD800 + (c.toNat - 0x10000) / 0x400, 0xDC00 + (c.toNat - 0x10000) % 0x400]

/-- The UTF-16 code units of a text. -/
def utf16 (s : String) : CodeUnits :=
  s.toList.flatMap Char.codeUnits

/-- A relative index of `String.prototype.slice` resolved against the length: a
negative index counts from the end, and the result is clamped to `0 … len`. -/
def sliceIndex (len : Nat) (i : Int) : Nat :=
  if i < 0 then (len + i).toNat else min i.toNat len

/-- `s.slice(start, stop)`, and `s.slice(start)` when `stop` is `none`. -/
def jsSlice (s : CodeUnits) (start : Int) (stop : Option Int) : CodeUnits :=
  let first := sliceIndex s.length start
  let last :=
    match stop with
    | none => s.length
    | some e => sliceIndex s.length e
  (s.drop first).take (last - first)

/-- `formatPrincipal(principalStr)`, lines 281-286. -/
def formatPrincipal (principalStr : CodeUnits) : CodeUnits :=
  if principalStr.length > 20 then
    jsSlice principalStr 0 (some 10) ++ utf16 "..." ++ jsSlice principalStr (-6) none
  else principalStr

/-! ## Reaching the dispatch -/

/-- A request that passes checks a-d reaches the `try` block. -/
theorem transferTokens_of_checks (rt : Runtime) {s : State} {actor : Actor} {amount : Int}
    (h : PassesChecks s actor amount) :
    transferTokens rt s = settleTransfer (transferTry rt actor s.dispatching amount) := by
  have hpos : ¬ amount ≤ 0 := not_le.mpr h.positive
  have hledger : (decide (s.transferType = .icrc) && s.icrcBalance.isNone) = false := by
    by_cases ht : s.transferType = .icrc
    · have := h.ledger ht
      cases hb : s.icrcBalance with
      | none => exact absurd hb this
      | some b => simp
    · simp [ht]
  unfold transferTokens
  simp only [h.bound, h.recipientGiven, h.amountGiven, h.parsed, JSNumber.isNaN,
    JSNumber.leZero, toBigInt, h.covered, hledger, State.dispatching]
  simp [hpos]

/-! ## Facts about the JavaScript primitives -/

/-- A double obtained from a natural number is never below zero. -/
theorem toDouble_shape (n : Nat) : toDouble n = .posInf ∨ ∃ k : Nat, toDouble n = .fin k := by
  unfold toDouble
  split
  · exact Or.inr ⟨n, rfl⟩
  · dsimp only
    split
    · exact Or.inl rfl
    · exact Or.inr ⟨_, rfl⟩

/-- The negation of a double obtained from a natural number is at most zero. -/
theorem toDouble_neg_leZero (n : Nat) : (toDouble n).neg.leZero = true := by
  rcases toDouble_shape n with h | ⟨k, h⟩
  · rw [h]; rfl
  · rw [h]
    simp only [JSNumber.neg, JSNumber.leZero, decide_eq_true_eq]
    exact neg_nonpos.mpr (Int.ofNat_nonneg k)

/-- Zero is represented exactly. -/
theorem toDouble_zero : toDouble 0 = .fin 0 := by
  simp [toDouble]

/-- A decimal digit is not white space. -/
theorem not_whiteSpace_of_digit {c : Char} (h : (digitValue 10 c).isSome = true) :
    isJsWhiteSpace c = false := by
  unfold digitValue at h
  unfold isJsWhiteSpace
  generalize c.toNat = n at h ⊢
  by_cases h1 : 48 ≤ n <;> by_cases h2 : n ≤ 57 <;> simp_all
  omega

/-- On a text made of decimal digits only, no radix marker is found. -/
theorem splitRadix_of_digits {cs : List Char}
    (h : cs.all (fun c => (digitValue 10 c).isSome) = true) : splitRadix cs = (10, cs) := by
  match cs, h with
  | [], _ => rfl
  | [_], _ => rfl
  | c :: d :: cs, h =>
    have hd : (digitValue 10 d).isSome = true := by
      simp only [List.all_cons, Bool.and_eq_true] at h
      exact h.2.1
    have hx : ¬ (c = '0' ∧ (d = 'x' ∨ d = 'X')) := by
      rintro ⟨-, rfl | rfl⟩ <;> simp [digitValue] at hd
    simp [splitRadix, hx]

/-- A non-empty run of decimal digits yields at least one digit value. -/
theorem takeDigits_ne_nil {cs : List Char} (hne : cs ≠ [])
    (h : cs.all (fun c => (digitValue 10 c).isSome) = true) : takeDigits 10 cs ≠ [] := by
  match cs, hne, h with
  | c :: cs, _, h =>
    simp only [List.all_cons, Bool.and_eq_true] at h
    obtain ⟨d, hd⟩ := Option.isSome_iff_exists.mp h.1
    simp [takeDigits, hd]

/-- The digits `parseInt` reads from a text without leading white space. -/
theorem parseInt_of_dropWhile {s : String}
    (h : s.toList.dropWhile isJsWhiteSpace = s.toList) :
    parseInt s =
      (if (takeDigits (splitRadix (splitSign s.toList).2).1
            (splitRadix (splitSign s.toList).2).2).isEmpty then JSNumber.nan
       else if (splitSign s.toList).1 then
        (toDouble (digitsValue (splitRadix (splitSign s.toList).2).1
          (takeDigits (splitRadix (splitSign s.toList).2).1
            (splitRadix (splitSign s.toList).2).2))).neg
       else toDouble (digitsValue (splitRadix (splitSign s.toList).2).1
          (takeDigits (splitRadix (splitSign s.toList).2).1
            (splitRadix (splitSign s.toList).2).2))) := by
  simp only [parseInt, h]

/-- A base-10 integer literal that denotes an integer `≤ 0` is parsed by
`parseInt` to a number `≤ 0`. -/
theorem parseInt_leZero_of_decimalLiteral {s : String} {v : Int}
    (h : decimalLiteral s = some v) (hv : v ≤ 0) : (parseInt s).leZero = true := by
  unfold decimalLiteral at h
  dsimp only at h
  split at h
  · exact absurd h (by simp)
  · rename_i hcond
    simp only [Bool.or_eq_true, List.isEmpty_iff, Bool.not_eq_true', not_or,
      Bool.not_eq_false] at hcond
    obtain ⟨hne, hall⟩ := hcond
    have hdrop : s.toList.dropWhile isJsWhiteSpace = s.toList := by
      cases hs : s.toList with
      | nil => rfl
      | cons c cs =>
        have hc : isJsWhiteSpace c = false := by
          rw [hs] at hne hall
          by_cases h1 : c = '-'
          · subst h1; decide
          · by_cases h2 : c = '+'
            · subst h2; decide
            · simp only [splitSign, h1, h2, if_false, List.all_cons, Bool.and_eq_true] at hall
              exact not_whiteSpace_of_digit hall.1
        simp [List.dropWhile, hc]
    rw [parseInt_of_dropWhile hdrop, splitRadix_of_digits hall]
    have hds := takeDigits_ne_nil hne hall
    simp only [List.isEmpty_iff, hds, if_false]
    simp only [Option.some.injEq] at h
    by_cases hsign : (splitSign s.toList).1 = true
    · simp only [hsign, if_true]
      exact toDouble_neg_leZero _
    · simp only [hsign, if_false] at h ⊢
      have hz : digitsValue 10 (takeDigits 10 (splitSign s.toList).2) = 0 := by
        have : (0 : Int) ≤ digitsValue 10 (takeDigits 10 (splitSign s.toList).2) :=
          Int.ofNat_nonneg _
        simp only [Bool.false_eq_true, if_false] at h
        omega
      rw [hz, toDouble_zero]
      rfl

/-- A text that trims to the empty string contains white space only. -/
theorem dropWhile_eq_nil_of_trim {cs : List Char} (h : jsTrimChars cs = []) :
    cs.dropWhile isJsWhiteSpace = [] := by
  unfold jsTrimChars at h
  rw [List.reverse_eq_nil_iff, List.dropWhile_eq_nil_iff] at h
  by_contra hne
  have hhead := List.head_dropWhile_not isJsWhiteSpace cs hne
  have hmem := List.head_mem hne
  have := h _ (List.mem_reverse.mpr hmem)
  simp [this] at hhead

/-- A blank text is not a number: `parseInt` yields `NaN` for it. Hence a text
that `parseInt` accepts is non-blank. -/
theorem truthy_trim_of_parseInt {s : String} {a : Int} (h : parseInt s = .fin a) :
    truthy (jsTrim s) = true := by
  by_contra hblank
  have hnil : jsTrimChars s.toList = [] := by
    simpa [truthy, jsTrim] using hblank
  have hdrop := dropWhile_eq_nil_of_trim hnil
  unfold parseInt at h
  rw [hdrop] at h
  simp [splitSign, splitRadix, takeDigits] at h

/-- Below `2 ^ 53` every natural number is a double: the conversion is exact. -/
theorem toDouble_of_lt {n : Nat} (h : n < 2 ^ 53) : toDouble n = .fin n := by
  unfold toDouble
  rw [if_pos h]

/-- A number below `2 ^ 64` is far from overflowing to `Infinity`. -/
theorem not_doubleOverflow_le {n : Nat} (h : n < 2 ^ 64) : ¬ doubleOverflow ≤ n := by
  have h1 : 2 ^ 64 ≤ doubleOverflow := by
    unfold doubleOverflow
    exact Nat.pow_le_pow_right (by decide) (by decide)
  omega

/-- The integer `10 ^ 18 + 1` is not a double: it is rounded down to `10 ^ 18`. -/
theorem toDouble_rounds_down : toDouble 1000000000000000001 = .fin 1000000000000000000 := by
  have hlog : Nat.log2 1000000000000000001 = 59 := by
    rw [Nat.log2_eq_log_two]
    exact Nat.log_eq_of_pow_le_of_lt_pow (by norm_num) (by norm_num)
  have hround : roundHalfEven 1000000000000000001 7 = 7812500000000000 := by
    norm_num [roundHalfEven]
  have hover : ¬ doubleOverflow ≤ 7812500000000000 * 2 ^ 7 :=
    not_doubleOverflow_le (by norm_num)
  unfold toDouble
  rw [if_neg (by norm_num)]
  simp only [hlog, Nat.reduceSub, hround, if_neg hover]
  norm_num

/-- The integer `2 ^ 53 + 3` is not a double: the tie is rounded up to the even
significand, `2 ^ 53 + 4`. -/
theorem toDouble_rounds_up : toDouble 9007199254740995 = .fin 9007199254740996 := by
  have hlog : Nat.log2 9007199254740995 = 53 := by
    rw [Nat.log2_eq_log_two]
    exact Nat.log_eq_of_pow_le_of_lt_pow (by norm_num) (by norm_num)
  have hround : roundHalfEven 9007199254740995 1 = 4503599627370498 := by
    norm_num [roundHalfEven]
  have hover : ¬ doubleOverflow ≤ 4503599627370498 * 2 ^ 1 :=
    not_doubleOverflow_le (by norm_num)
  unfold toDouble
  rw [if_neg (by norm_num)]
  simp only [hlog, Nat.reduceSub, hround, if_neg hover]
  norm_num

/-- A base-10 integer literal that denotes a positive integer is parsed by
`parseInt` to the double nearest to that integer. -/
theorem parseInt_of_decimalLiteral_pos {s : String} {v : Int}
    (h : decimalLiteral s = some v) (hv : 0 < v) : parseInt s = toDouble v.toNat := by
  unfold decimalLiteral at h
  dsimp only at h
  split at h
  · exact absurd h (by simp)
  · rename_i hcond
    simp only [Bool.or_eq_true, List.isEmpty_iff, Bool.not_eq_true', not_or,
      Bool.not_eq_false] at hcond
    obtain ⟨hne, hall⟩ := hcond
    have hdrop : s.toList.dropWhile isJsWhiteSpace = s.toList := by
      cases hs : s.toList with
      | nil => rfl
      | cons c cs =>
        have hc : isJsWhiteSpace c = false := by
          rw [hs] at hne hall
          by_cases h1 : c = '-'
          · subst h1; decide
          · by_cases h2 : c = '+'
            · subst h2; decide
            · simp only [splitSign, h1, h2, if_false, List.all_cons, Bool.and_eq_true] at hall
              exact not_whiteSpace_of_digit hall.1
        simp [List.dropWhile, hc]
    rw [parseInt_of_dropWhile hdrop, splitRadix_of_digits hall]
    have hds := takeDigits_ne_nil hne hall
    simp only [List.isEmpty_iff, hds, if_false]
    simp only [Option.some.injEq] at h
    have hnn : (0 : Int) ≤ digitsValue 10 (takeDigits 10 (splitSign s.toList).2) :=
      Int.ofNat_nonneg _
    by_cases hsign : (splitSign s.toList).1 = true
    · simp only [hsign, if_true] at h
      omega
    · have hplus : (splitSign s.toList).1 = false := by simpa using hsign
      rw [hplus] at h ⊢
      simp only [Bool.false_eq_true, if_false] at h ⊢
      rw [← h, Int.toNat_ofNat]

/-- A base-10 integer literal that denotes a positive integer below `2 ^ 53` is
parsed by `parseInt` to exactly that integer. -/
theorem parseInt_of_decimalLiteral_exact {s : String} {v : Int}
    (h : decimalLiteral s = some v) (hv : 0 < v) (hsmall : v < 2 ^ 53) :
    parseInt s = .fin v := by
  rw [parseInt_of_decimalLiteral_pos h hv, toDouble_of_lt (by omega)]
  congr 1
  exact Int.toNat_of_nonneg hv.le

/-- The amount that the code compares and sends: the number `parseInt` reads
from the amount text, which for a base-10 integer literal below `2 ^ 53` is the
integer written. -/
theorem parsed_of_reads {text : String} {amount : Int} (hpos : 0 < amount)
    (h : parseInt text = .fin amount ∨ (decimalLiteral text = some amount ∧ amount < 2 ^ 53)) :
    parseInt text = .fin amount := by
  rcases h with h | ⟨hlit, hsmall⟩
  · exact h
  · exact parseInt_of_decimalLiteral_exact hlit hpos hsmall

/-- The amount text `1000000000000000001` (`10 ^ 18 + 1`) is read by `parseInt`
as `10 ^ 18`. -/
theorem parseInt_rounds_down :
    parseInt "1000000000000000001" = .fin 1000000000000000000 := by
  have hlit : decimalLiteral "1000000000000000001" = some 1000000000000000001 := by decide
  rw [parseInt_of_decimalLiteral_pos hlit (by decide)]
  exact toDouble_rounds_down

/-- The amount text `9007199254740995` (`2 ^ 53 + 3`) is read by `parseInt` as
`2 ^ 53 + 4`. -/
theorem parseInt_rounds_up :
    parseInt "9007199254740995" = .fin 9007199254740996 := by
  have hlit : decimalLiteral "9007199254740995" = some 9007199254740995 := by decide
  rw [parseInt_of_decimalLiteral_pos hlit (by decide)]
  exact toDouble_rounds_up

/-! ## Transfer: pre-flight rejections -/

/-- C1, counterexample: the amount texts `12abc` and `1.5` are not base-10
integer literals, yet `transferTokens` does not reject them: it dispatches the
transfer call with the amounts 12 and 1 and reports success. -/
theorem transferTokens_invalid_amount_counterexample :
    decimalLiteral "12abc" = none ∧ decimalLiteral "1.5" = none ∧
    (transferTokens Runtime.sample (State.sample Actor.sample "aaaaa-aa" "12abc")).calls =
      [.transfer ⟨"aaaaa-aa"⟩ 12, .get_balance, .get_transaction_history, .get_icrc_balance] ∧
    (transferTokens Runtime.sample
      (State.sample Actor.sample "aaaaa-aa" "12abc")).state.transferStatus =
      "INTERNAL transfer successful!" ∧
    (transferTokens Runtime.sample (State.sample Actor.sample "aaaaa-aa" "1.5")).calls =
      [.transfer ⟨"aaaaa-aa"⟩ 1, .get_balance, .get_transaction_history, .get_icrc_balance] ∧
    (transferTokens Runtime.sample
      (State.sample Actor.sample "aaaaa-aa" "1.5")).state.transferStatus =
      "INTERNAL transfer successful!" := by
  decide

/-- C1, amended: for every state with a bound actor and non-blank recipient and
amount texts, if `parseInt` of the amount text is `NaN` or a number `≤ 0` - in
particular if the text is a base-10 integer literal denoting an integer `≤ 0` -
then `transferTokens` reports "Please enter a valid amount", issues zero remote
calls, resolves, and changes nothing else in the state. -/
theorem transferTokens_invalid_amount (rt : Runtime) (s : State) (actor : Actor)
    (hactor : s.actor = some actor)
    (hto : truthy (jsTrim s.transferTo) = true)
    (hamount : truthy (jsTrim s.transferAmount) = true)
    (hbad : parseInt s.transferAmount = .nan ∨ (parseInt s.transferAmount).leZero = true ∨
      ∃ v, decimalLiteral s.transferAmount = some v ∧ v ≤ 0) :
    (transferTokens rt s).state = { s with transferStatus := "Please enter a valid amount" } ∧
    (transferTokens rt s).calls = [] ∧
    (transferTokens rt s).raised = none := by
  have hrej : ((parseInt s.transferAmount).isNaN || (parseInt s.transferAmount).leZero) = true := by
    rcases hbad with h | h | ⟨v, h, hv⟩
    · simp [h, JSNumber.isNaN]
    · simp [h]
    · simp [parseInt_leZero_of_decimalLiteral h hv]
  unfold transferTokens
  simp only [hactor, hto, hamount, hrej]
  simp

/-- C1, witness: the amount texts `abc` (no digits) and `-5` (a literal below
zero) are rejected. -/
theorem transferTokens_invalid_amount_witness :
    (transferTokens Runtime.sample (State.sample Actor.sample "aaaaa-aa" "abc")).calls = [] ∧
    (transferTokens Runtime.sample
      (State.sample Actor.sample "aaaaa-aa" "-5")).state.transferStatus =
      "Please enter a valid amount" :=
  ⟨(transferTokens_invalid_amount Runtime.sample (State.sample Actor.sample "aaaaa-aa" "abc")
      Actor.sample rfl (by decide) (by decide) (Or.inl (by decide))).2.1,
   by
    rw [(transferTokens_invalid_amount Runtime.sample
      (State.sample Actor.sample "aaaaa-aa" "-5") Actor.sample rfl (by decide) (by decide)
      (Or.inr (Or.inr ⟨-5, by decide, by decide⟩))).1]⟩

/-- A request that passes checks a-c and whose parsed amount is above the
balance of the selected ledger stops at check d. -/
theorem transferTokens_of_exceeds (rt : Runtime) {s : State} {actor : Actor} {amount : Int}
    (hactor : s.actor = some actor)
    (hto : truthy (jsTrim s.transferTo) = true)
    (hparsed : parseInt s.transferAmount = .fin amount)
    (hpos : 0 < amount)
    (hexceeds : (s.transferType = .internal ∧ ∃ b, s.balance = .fin b ∧ b < amount) ∨
      (s.transferType = .icrc ∧ ∃ b, s.icrcBalance = some b ∧ b < amount)) :
    transferTokens rt s = ⟨{ s with transferStatus := "Insufficient balance" }, [], none⟩ := by
  have hamount := truthy_trim_of_parseInt hparsed
  have hnp : ¬ amount ≤ 0 := not_le.mpr hpos
  have hgt : bigintGt amount (availableBalance s) = true := by
    rcases hexceeds with ⟨ht, b, hb, hlt⟩ | ⟨ht, b, hb, hlt⟩
    · simp [availableBalance, ht, hb, bigintGt, hlt]
    · simp [availableBalance, ht, hb, bigintGt, hlt]
  have hledger : (decide (s.transferType = .icrc) && s.icrcBalance.isNone) = false := by
    rcases hexceeds with ⟨ht, -⟩ | ⟨-, b, hb, -⟩
    · simp [ht]
    · simp [hb]
  unfold transferTokens
  simp only [hactor, hto, hamount, hparsed, JSNumber.isNaN, JSNumber.leZero, toBigInt, hgt,
    hledger]
  simp [hnp]

/-- C2, amended: for every state with a bound actor, a non-blank recipient and an
amount text that `parseInt` reads as the finite positive number `amount` - in
particular every base-10 integer literal that denotes a positive integer below
`2 ^ 53`, which is read exactly - if `amount` is strictly greater than the
balance of the selected ledger (`balance` for internal, the present
`icrcBalance` for icrc), `transferTokens` reports "Insufficient balance", issues
zero remote calls and leaves `balance` and `icrcBalance` unchanged. -/
theorem transferTokens_insufficient_balance (rt : Runtime) (s : State) (actor : Actor)
    (amount : Int)
    (hactor : s.actor = some actor)
    (hto : truthy (jsTrim s.transferTo) = true)
    (hreads : parseInt s.transferAmount = .fin amount ∨
      (decimalLiteral s.transferAmount = some amount ∧ amount < 2 ^ 53))
    (hpos : 0 < amount)
    (hexceeds : (s.transferType = .internal ∧ ∃ b, s.balance = .fin b ∧ b < amount) ∨
      (s.transferType = .icrc ∧ ∃ b, s.icrcBalance = some b ∧ b < amount)) :
    (transferTokens rt s).state.transferStatus = "Insufficient balance" ∧
    (transferTokens rt s).calls = [] ∧
    (transferTokens rt s).raised = none ∧
    (transferTokens rt s).state.balance = s.balance ∧
    (transferTokens rt s).state.icrcBalance = s.icrcBalance := by
  rw [transferTokens_of_exceeds rt hactor hto (parsed_of_reads hpos hreads) hpos hexceeds]
  exact ⟨rfl, rfl, rfl, rfl, rfl⟩

/-- C2, witness: internal balance 100, amount 150. -/
theorem transferTokens_insufficient_balance_witness :
    (transferTokens Runtime.sample
      (State.sample Actor.sample "aaaaa-aa" "150")).state.transferStatus =
      "Insufficient balance" ∧
    (transferTokens Runtime.sample (State.sample Actor.sample "aaaaa-aa" "150")).calls = [] ∧
    (transferTokens Runtime.sample (State.sample Actor.sample "aaaaa-aa" "150")).raised = none ∧
    (transferTokens Runtime.sample (State.sample Actor.sample "aaaaa-aa" "150")).state.balance =
      .fin 100 ∧
    (transferTokens Runtime.sample
      (State.sample Actor.sample "aaaaa-aa" "150")).state.icrcBalance = none :=
  transferTokens_insufficient_balance Runtime.sample (State.sample Actor.sample "aaaaa-aa" "150")
    Actor.sample 150 rfl (by decide) (Or.inr ⟨by decide, by decide⟩) (by decide)
    (Or.inl ⟨rfl, 100, rfl, by decide⟩)

/-- C4: for every state with a bound actor, a non-blank recipient and an amount
text that parses to a positive integer, if the external ledger is selected and
`icrcBalance` is absent, `transferTokens` reports "ICRC balance not available.
Please configure ICRC ledger." and issues zero remote calls. -/
theorem transferTokens_ledger_unavailable (rt : Runtime) (s : State) (actor : Actor)
    (amount : Int)
    (hactor : s.actor = some actor)
    (hto : truthy (jsTrim s.transferTo) = true)
    (hparsed : parseInt s.transferAmount = .fin amount)
    (hpos : 0 < amount)
    (htype : s.transferType = .icrc)
    (habsent : s.icrcBalance = none) :
    (transferTokens rt s).state.transferStatus =
      "ICRC balance not available. Please configure ICRC ledger." ∧
    (transferTokens rt s).calls = [] ∧
    (transferTokens rt s).raised = none := by
  have hamount := truthy_trim_of_parseInt hparsed
  have hnp : ¬ amount ≤ 0 := not_le.mpr hpos
  unfold transferTokens
  simp only [hactor, hto, hamount, hparsed, JSNumber.isNaN, JSNumber.leZero, htype, habsent]
  simp [hnp]

/-- C4, witness: external ledger selected, no external balance, amount 5. -/
theorem transferTokens_ledger_unavailable_witness :
    (transferTokens Runtime.sample
      { State.sample Actor.sample "aaaaa-aa" "5" with transferType := .icrc }).state.transferStatus
      = "ICRC balance not available. Please configure ICRC ledger." ∧
    (transferTokens Runtime.sample
      { State.sample Actor.sample "aaaaa-aa" "5" with transferType := .icrc }).calls = [] ∧
    (transferTokens Runtime.sample
      { State.sample Actor.sample "aaaaa-aa" "5" with transferType := .icrc }).raised = none :=
  transferTokens_ledger_unavailable Runtime.sample
    { State.sample Actor.sample "aaaaa-aa" "5" with transferType := .icrc }
    Actor.sample 5 rfl (by decide) (by decide) (by decide) rfl rfl

/-- C3, counterexample: the recipient `not a principal!` passes checks a-d with
amount 50 and `Principal.fromText` throws on it with the message
`Invalid character "!"`; `transferTokens` then reports a "Transfer failed: …"
status, not "Invalid principal format". -/
theorem transferTokens_malformed_recipient_counterexample :
    PassesChecks (State.sample Actor.sample "not a principal!" "50") Actor.sample 50 ∧
    (Runtime.rejecting "Invalid character \"!\"").fromText (jsTrim "not a principal!") =
      .error "Invalid character \"!\"" ∧
    (transferTokens (Runtime.rejecting "Invalid character \"!\"")
      (State.sample Actor.sample "not a principal!" "50")).state.transferStatus =
      "Transfer failed: Invalid character \"!\"" ∧
    (transferTokens (Runtime.rejecting "Invalid character \"!\"")
      (State.sample Actor.sample "not a principal!" "50")).state.transferStatus ≠
      "Invalid principal format" :=
  ⟨⟨rfl, by decide, by decide, by decide, by decide, by decide, by decide⟩,
    rfl, by decide, by decide⟩

/-- C3, amended: for every request that passes checks a-d, if `Principal.fromText`
throws on the trimmed recipient with message `m`, `transferTokens` issues no
remote call (neither `transfer` nor `icrc_transfer`), resolves, and reports
"Invalid principal format" when `m` contains "Invalid principal" and
"Transfer failed: " followed by `m` otherwise. -/
theorem transferTokens_malformed_recipient (rt : Runtime) (s : State) (actor : Actor)
    (amount : Int) (m : String)
    (hchecks : PassesChecks s actor amount)
    (hthrows : rt.fromText (jsTrim s.transferTo) = .error m) :
    (transferTokens rt s).calls = [] ∧
    (transferTokens rt s).raised = none ∧
    (jsIncludes m "Invalid principal" = true →
      (transferTokens rt s).state.transferStatus = "Invalid principal format") ∧
    (jsIncludes m "Invalid principal" = false →
      (transferTokens rt s).state.transferStatus = "Transfer failed: " ++ m) := by
  rw [transferTokens_of_checks rt hchecks]
  have htry : transferTry rt actor s.dispatching amount = ⟨s.dispatching, [], some m⟩ := by
    have : rt.fromText (jsTrim s.dispatching.transferTo) = .error m := hthrows
    simp [transferTry, this]
  rw [htry]
  refine ⟨rfl, rfl, ?_, ?_⟩
  · intro hinc
    simp [settleTransfer, catchStatus, hinc]
  · intro hinc
    simp [settleTransfer, catchStatus, hinc]

/-- C3, witness: a recipient rejected with the message "Invalid principal text",
and the same recipient rejected with the message `Invalid character "!"`. -/
theorem transferTokens_malformed_recipient_witness :
    (transferTokens (Runtime.rejecting "Invalid principal text")
      (State.sample Actor.sample "not a principal!" "50")).calls = [] ∧
    (transferTokens (Runtime.rejecting "Invalid principal text")
      (State.sample Actor.sample "not a principal!" "50")).state.transferStatus =
      "Invalid principal format" ∧
    (transferTokens (Runtime.rejecting "Invalid character \"!\"")
      (State.sample Actor.sample "not a principal!" "50")).calls = [] :=
  ⟨(transferTokens_malformed_recipient (Runtime.rejecting "Invalid principal text")
      (State.sample Actor.sample "not a principal!" "50") Actor.sample 50
      "Invalid principal text"
      ⟨rfl, by decide, by decide, by decide, by decide, by decide, by decide⟩ rfl).1,
   (transferTokens_malformed_recipient (Runtime.rejecting "Invalid principal text")
      (State.sample Actor.sample "not a principal!" "50") Actor.sample 50
      "Invalid principal text"
      ⟨rfl, by decide, by decide, by decide, by decide, by decide, by decide⟩ rfl).2.2.1
      (by decide),
   (transferTokens_malformed_recipient (Runtime.rejecting "Invalid character \"!\"")
      (State.sample Actor.sample "not a principal!" "50") Actor.sample 50
      "Invalid character \"!\""
      ⟨rfl, by decide, by decide, by decide, by decide, by decide, by decide⟩ rfl).1⟩

/-! ## Refresh -/

/-- The refresh never rejects: every failure inside it is caught. -/
theorem fetchTokenData_raised (backendActor : Option Actor) (s : State) :
    (fetchTokenData backendActor s).raised = none := by
  unfold fetchTokenData
  repeat' split
  all_goals rfl

/-- The refresh writes `balance`, `transactionHistory` and `icrcBalance` only. -/
theorem fetchTokenData_frame (backendActor : Option Actor) (s : State) :
    (fetchTokenData backendActor s).state.transferStatus = s.transferStatus ∧
    (fetchTokenData backendActor s).state.transferTo = s.transferTo ∧
    (fetchTokenData backendActor s).state.transferAmount = s.transferAmount ∧
    (fetchTokenData backendActor s).state.showTransferForm = s.showTransferForm ∧
    (fetchTokenData backendActor s).state.isLoading = s.isLoading := by
  unfold fetchTokenData
  repeat' split
  all_goals exact ⟨rfl, rfl, rfl, rfl, rfl⟩

/-- The calls of a refresh: `get_balance` first, then `get_transaction_history`
if that succeeded, then `get_icrc_balance` if that succeeded too. -/
theorem fetchTokenData_calls (actor : Actor) (s : State) :
    (fetchTokenData (some actor) s).calls =
      match actor.get_balance, actor.get_transaction_history with
      | .error _, _ => [.get_balance]
      | .ok _, .error _ => [.get_balance, .get_transaction_history]
      | .ok _, .ok _ => [.get_balance, .get_transaction_history, .get_icrc_balance] := by
  cases hb : actor.get_balance with
  | error e => simp [fetchTokenData, hb]
  | ok b =>
    cases hh : actor.get_transaction_history with
    | error e => simp [fetchTokenData, hb, hh]
    | ok h =>
      simp only [fetchTokenData, hb, hh]
      split <;> rfl

/-! ## Transfer: dispatch and interpretation of the result -/

/-- A request that passes the pre-flight validation and whose transfer call
resolves to an `Ok` wrapper: the form is cleared, the success status is set and
the refresh runs. -/
theorem transferTokens_of_ok (rt : Runtime) {s : State} {actor : Actor}
    {recipient : Principal} {amount : Int}
    (h : PassesPreflight rt s actor recipient amount)
    (hreply : transferReply actor s.transferType recipient amount = .ok .Ok) :
    transferTokens rt s =
      ⟨{ (fetchTokenData (some actor)
            { s.dispatching with
              transferStatus := s.transferType.toUpperCase ++ " transfer successful!"
              transferTo := ""
              transferAmount := ""
              showTransferForm := false }).state with isLoading := false },
        transferCall s.transferType recipient amount ::
          (fetchTokenData (some actor)
            { s.dispatching with
              transferStatus := s.transferType.toUpperCase ++ " transfer successful!"
              transferTo := ""
              transferAmount := ""
              showTransferForm := false }).calls,
        none⟩ := by
  rw [transferTokens_of_checks rt h.checks]
  have hw : rt.fromText (jsTrim s.dispatching.transferTo) = .ok recipient := h.wellFormed
  have hr : transferReply actor s.dispatching.transferType recipient amount = .ok .Ok := hreply
  have ha : s.dispatching.actor = some actor := h.checks.bound
  simp only [transferTry, hw, hr, interpretResult, TransferResult.hasKey, ha]
  simp [settleTransfer, fetchTokenData_raised, State.dispatching]

/-- A request that passes the pre-flight validation and whose transfer call
resolves to an `Err` wrapper: the status is chosen from the error, nothing else
happens. -/
theorem transferTokens_of_err (rt : Runtime) {s : State} {actor : Actor}
    {recipient : Principal} {amount : Int} {error : TransferError}
    (h : PassesPreflight rt s actor recipient amount)
    (hreply : transferReply actor s.transferType recipient amount = .ok (.Err error)) :
    transferTokens rt s =
      ⟨{ s with transferStatus := errStatus error, isLoading := false },
        [transferCall s.transferType recipient amount], none⟩ := by
  rw [transferTokens_of_checks rt h.checks]
  have hw : rt.fromText (jsTrim s.dispatching.transferTo) = .ok recipient := h.wellFormed
  have hr : transferReply actor s.dispatching.transferType recipient amount =
      .ok (.Err error) := hreply
  simp only [transferTry, hw, hr, interpretResult, TransferResult.hasKey]
  simp [settleTransfer, TransferResult.isString, State.dispatching]

/-- A request that passes the pre-flight validation and whose `try` block throws
after the recipient was parsed (the call throws, or the `in` operator does). -/
theorem transferTokens_of_thrown (rt : Runtime) {s : State} {actor : Actor}
    {recipient : Principal} {amount : Int} {m : String}
    (h : PassesPreflight rt s actor recipient amount)
    (hthrown : transferReply actor s.transferType recipient amount = .error m ∨
      ∃ text, transferReply actor s.transferType recipient amount = .ok (.text text) ∧
        rt.inOperatorMessage "Ok" text = m) :
    transferTokens rt s =
      ⟨{ s with transferStatus := catchStatus m, isLoading := false },
        [transferCall s.transferType recipient amount], none⟩ := by
  rw [transferTokens_of_checks rt h.checks]
  have hw : rt.fromText (jsTrim s.dispatching.transferTo) = .ok recipient := h.wellFormed
  rcases hthrown with hr | ⟨text, hr, hm⟩
  · have hr1 : transferReply actor s.dispatching.transferType recipient amount = .error m := hr
    simp only [transferTry, hw, hr1]
    simp [settleTransfer, State.dispatching]
  · have hr1 : transferReply actor s.dispatching.transferType recipient amount =
        .ok (.text text) := hr
    simp only [transferTry, hw, hr1, interpretResult, TransferResult.hasKey, hm]
    simp [settleTransfer, State.dispatching]

/-- The success half of C5: when the transfer call of a request that passes the
pre-flight validation resolves to an `Ok` wrapper, `transferTokens` reports the
success status, clears the pending request, hides the form and runs the refresh
(whose first call, `get_balance`, follows the transfer call). -/
theorem transferTokens_ok_success (rt : Runtime) (s : State) (actor : Actor)
    (recipient : Principal) (amount : Int)
    (h : PassesPreflight rt s actor recipient amount)
    (hreply : transferReply actor s.transferType recipient amount = .ok .Ok) :
    (transferTokens rt s).state.transferStatus =
      s.transferType.toUpperCase ++ " transfer successful!" ∧
    (transferTokens rt s).state.transferTo = "" ∧
    (transferTokens rt s).state.transferAmount = "" ∧
    (transferTokens rt s).state.showTransferForm = false ∧
    (transferTokens rt s).raised = none ∧
    (transferTokens rt s).calls.take 2 =
      [transferCall s.transferType recipient amount, .get_balance] := by
  rw [transferTokens_of_ok rt h hreply]
  refine ⟨?_, ?_, ?_, ?_, rfl, ?_⟩
  · exact (fetchTokenData_frame _ _).1
  · exact (fetchTokenData_frame _ _).2.1
  · exact (fetchTokenData_frame _ _).2.2.1
  · exact (fetchTokenData_frame _ _).2.2.2.1
  · rw [fetchTokenData_calls]
    split <;> rfl

/-- C5, at the failing input: when the transfer call of a request that passes
the pre-flight validation resolves to a plain string, the `in` operator throws;
`transferTokens` reports an error status, keeps the pending request and the form
as they were, and issues no refresh call. -/
theorem transferTokens_string_result (rt : Runtime) (s : State) (actor : Actor)
    (recipient : Principal) (amount : Int) (text : String)
    (h : PassesPreflight rt s actor recipient amount)
    (hreply : transferReply actor s.transferType recipient amount = .ok (.text text)) :
    ((transferTokens rt s).state.transferStatus = "Invalid principal format" ∨
      (transferTokens rt s).state.transferStatus =
        "Transfer failed: " ++ rt.inOperatorMessage "Ok" text) ∧
    (transferTokens rt s).state.transferTo = s.transferTo ∧
    (transferTokens rt s).state.transferAmount = s.transferAmount ∧
    (transferTokens rt s).state.showTransferForm = s.showTransferForm ∧
    (transferTokens rt s).calls = [transferCall s.transferType recipient amount] := by
  rw [transferTokens_of_thrown rt h (Or.inr ⟨text, hreply, rfl⟩)]
  refine ⟨?_, rfl, rfl, rfl, rfl⟩
  by_cases hinc : jsIncludes (rt.inOperatorMessage "Ok" text) "Invalid principal" = true
  · exact Or.inl (by simp [catchStatus, hinc])
  · exact Or.inr (by simp [catchStatus, hinc])

/-- C5, witness: internal balance 100, amount 50, the transfer call resolves to
the plain string `ok`: no success status, the request stays, no refresh. -/
theorem transferTokens_string_result_witness :
    (transferTokens Runtime.sample
      (State.sample { Actor.sample with transfer := fun _ _ => .ok (.text "ok") }
        "aaaaa-aa" "50")).state.transferStatus ≠ "INTERNAL transfer successful!" ∧
    (transferTokens Runtime.sample
      (State.sample { Actor.sample with transfer := fun _ _ => .ok (.text "ok") }
        "aaaaa-aa" "50")).state.transferTo = "aaaaa-aa" ∧
    (transferTokens Runtime.sample
      (State.sample { Actor.sample with transfer := fun _ _ => .ok (.text "ok") }
        "aaaaa-aa" "50")).calls = [.transfer ⟨"aaaaa-aa"⟩ 50] :=
  ⟨by decide,
   (transferTokens_string_result Runtime.sample
      (State.sample { Actor.sample with transfer := fun _ _ => .ok (.text "ok") }
        "aaaaa-aa" "50")
      { Actor.sample with transfer := fun _ _ => .ok (.text "ok") } ⟨"aaaaa-aa"⟩ 50 "ok"
      ⟨⟨rfl, by decide, by decide, by decide, by decide, by decide, by decide⟩, rfl⟩ rfl).2.1,
   (transferTokens_string_result Runtime.sample
      (State.sample { Actor.sample with transfer := fun _ _ => .ok (.text "ok") }
        "aaaaa-aa" "50")
      { Actor.sample with transfer := fun _ _ => .ok (.text "ok") } ⟨"aaaaa-aa"⟩ 50 "ok"
      ⟨⟨rfl, by decide, by decide, by decide, by decide, by decide, by decide⟩, rfl⟩
      rfl).2.2.2.2⟩

/-- C6: for every transfer that passes the pre-flight validation and whose remote
call resolves to an `Err` wrapper, the transfer call is the only remote call
(no `get_balance`, `get_transaction_history` or `get_icrc_balance` follows it)
and `balance`, `icrcBalance` and `transactionHistory` keep their values. -/
theorem transferTokens_err_no_refresh (rt : Runtime) (s : State) (actor : Actor)
    (recipient : Principal) (amount : Int) (error : TransferError)
    (h : PassesPreflight rt s actor recipient amount)
    (hreply : transferReply actor s.transferType recipient amount = .ok (.Err error)) :
    (transferTokens rt s).calls = [transferCall s.transferType recipient amount] ∧
    RemoteCall.get_balance ∉ (transferTokens rt s).calls ∧
    RemoteCall.get_transaction_history ∉ (transferTokens rt s).calls ∧
    RemoteCall.get_icrc_balance ∉ (transferTokens rt s).calls ∧
    (transferTokens rt s).state.balance = s.balance ∧
    (transferTokens rt s).state.icrcBalance = s.icrcBalance ∧
    (transferTokens rt s).state.transactionHistory = s.transactionHistory := by
  rw [transferTokens_of_err rt h hreply]
  refine ⟨rfl, ?_, ?_, ?_, rfl, rfl, rfl⟩ <;>
    · simp only [List.mem_singleton, transferCall]
      split <;> simp

/-- C6, witness: internal balance 100, amount 50, the backend answers
`Err(Unauthorized)`. -/
theorem transferTokens_err_no_refresh_witness :
    (transferTokens Runtime.sample
      (State.sample { Actor.sample with transfer := fun _ _ => .ok (.Err ⟨"Unauthorized", ""⟩) }
        "aaaaa-aa" "50")).calls = [.transfer ⟨"aaaaa-aa"⟩ 50] ∧
    (transferTokens Runtime.sample
      (State.sample { Actor.sample with transfer := fun _ _ => .ok (.Err ⟨"Unauthorized", ""⟩) }
        "aaaaa-aa" "50")).state.balance = .fin 100 :=
  ⟨(transferTokens_err_no_refresh Runtime.sample
      (State.sample { Actor.sample with transfer := fun _ _ => .ok (.Err ⟨"Unauthorized", ""⟩) }
        "aaaaa-aa" "50")
      { Actor.sample with transfer := fun _ _ => .ok (.Err ⟨"Unauthorized", ""⟩) }
      ⟨"aaaaa-aa"⟩ 50 ⟨"Unauthorized", ""⟩
      ⟨⟨rfl, by decide, by decide, by decide, by decide, by decide, by decide⟩, rfl⟩ rfl).1,
   (transferTokens_err_no_refresh Runtime.sample
      (State.sample { Actor.sample with transfer := fun _ _ => .ok (.Err ⟨"Unauthorized", ""⟩) }
        "aaaaa-aa" "50")
      { Actor.sample with transfer := fun _ _ => .ok (.Err ⟨"Unauthorized", ""⟩) }
      ⟨"aaaaa-aa"⟩ 50 ⟨"Unauthorized", ""⟩
      ⟨⟨rfl, by decide, by decide, by decide, by decide, by decide, by decide⟩, rfl⟩
      rfl).2.2.2.2.1⟩

/-- C7: for every transfer that passes the pre-flight validation and whose remote
call resolves to an `Err` wrapper, the reported status is determined by the tag
of the payload: `InsufficientBalance` and `InsufficientFunds` give "Insufficient
balance", `Unauthorized` gives "Unauthorized transfer", `InvalidReceiver` gives
"Invalid receiver principal", `GenericError` gives "Transfer failed: " followed
by its message, and every other tag gives "Transfer failed". -/
theorem transferTokens_err_status (rt : Runtime) (s : State) (actor : Actor)
    (recipient : Principal) (amount : Int) (error : TransferError)
    (h : PassesPreflight rt s actor recipient amount)
    (hreply : transferReply actor s.transferType recipient amount = .ok (.Err error)) :
    (error.tag = "InsufficientBalance" ∨ error.tag = "InsufficientFunds" →
      (transferTokens rt s).state.transferStatus = "Insufficient balance") ∧
    (error.tag = "Unauthorized" →
      (transferTokens rt s).state.transferStatus = "Unauthorized transfer") ∧
    (error.tag = "InvalidReceiver" →
      (transferTokens rt s).state.transferStatus = "Invalid receiver principal") ∧
    (error.tag = "GenericError" →
      (transferTokens rt s).state.transferStatus = "Transfer failed: " ++ error.message) ∧
    (error.tag ∉ ["InsufficientBalance", "InsufficientFunds", "Unauthorized",
        "InvalidReceiver", "GenericError"] →
      (transferTokens rt s).state.transferStatus = "Transfer failed") := by
  rw [transferTokens_of_err rt h hreply]
  refine ⟨?_, ?_, ?_, ?_, ?_⟩
  · rintro (ht | ht) <;> simp [errStatus, ht]
  · intro ht; simp [errStatus, ht]
  · intro ht; simp [errStatus, ht]
  · intro ht; simp [errStatus, ht]
  · intro ht
    simp only [List.mem_cons, List.mem_singleton, List.not_mem_nil, or_false, not_or] at ht
    obtain ⟨h1, h2, h3, h4, h5⟩ := ht
    simp [errStatus, h1, h2, h3, h4, h5]

/-- C7, witness: the statuses reported for `Err(InsufficientFunds)`, for
`Err(GenericError)` with the message `ledger busy`, and for the unrecognised tag
`BadFee`. -/
theorem transferTokens_err_status_witness :
    (transferTokens Runtime.sample
      (State.sample
        { Actor.sample with transfer := fun _ _ => .ok (.Err ⟨"InsufficientFunds", ""⟩) }
        "aaaaa-aa" "50")).state.transferStatus = "Insufficient balance" ∧
    (transferTokens Runtime.sample
      (State.sample
        { Actor.sample with transfer := fun _ _ => .ok (.Err ⟨"GenericError", "ledger busy"⟩) }
        "aaaaa-aa" "50")).state.transferStatus = "Transfer failed: ledger busy" ∧
    (transferTokens Runtime.sample
      (State.sample
        { Actor.sample with transfer := fun _ _ => .ok (.Err ⟨"BadFee", ""⟩) }
        "aaaaa-aa" "50")).state.transferStatus = "Transfer failed" :=
  ⟨(transferTokens_err_status Runtime.sample
      (State.sample
        { Actor.sample with transfer := fun _ _ => .ok (.Err ⟨"InsufficientFunds", ""⟩) }
        "aaaaa-aa" "50")
      { Actor.sample with transfer := fun _ _ => .ok (.Err ⟨"InsufficientFunds", ""⟩) }
      ⟨"aaaaa-aa"⟩ 50 ⟨"InsufficientFunds", ""⟩
      ⟨⟨rfl, by decide, by decide, by decide, by decide, by decide, by decide⟩, rfl⟩ rfl).1
      (Or.inr rfl),
   (transferTokens_err_status Runtime.sample
      (State.sample
        { Actor.sample with transfer := fun _ _ => .ok (.Err ⟨"GenericError", "ledger busy"⟩) }
        "aaaaa-aa" "50")
      { Actor.sample with transfer := fun _ _ => .ok (.Err ⟨"GenericError", "ledger busy"⟩) }
      ⟨"aaaaa-aa"⟩ 50 ⟨"GenericError", "ledger busy"⟩
      ⟨⟨rfl, by decide, by decide, by decide, by decide, by decide, by decide⟩, rfl⟩
      rfl).2.2.2.1 rfl,
   (transferTokens_err_status Runtime.sample
      (State.sample
        { Actor.sample with transfer := fun _ _ => .ok (.Err ⟨"BadFee", ""⟩) }
        "aaaaa-aa" "50")
      { Actor.sample with transfer := fun _ _ => .ok (.Err ⟨"BadFee", ""⟩) }
      ⟨"aaaaa-aa"⟩ 50 ⟨"BadFee", ""⟩
      ⟨⟨rfl, by decide, by decide, by decide, by decide, by decide, by decide⟩, rfl⟩
      rfl).2.2.2.2 (by decide)⟩

/-- C8, counterexample: the request passes the pre-flight validation and the
transfer call throws with the message `Call failed: Invalid principal argument`;
`transferTokens` reports "Invalid principal format", not "Transfer failed: "
followed by that message. -/
theorem transferTokens_transport_failure_counterexample :
    (transferTokens Runtime.sample
      (State.sample
        { Actor.sample with
          transfer := fun _ _ => .error "Call failed: Invalid principal argument" }
        "aaaaa-aa" "50")).state.transferStatus = "Invalid principal format" ∧
    (transferTokens Runtime.sample
      (State.sample
        { Actor.sample with
          transfer := fun _ _ => .error "Call failed: Invalid principal argument" }
        "aaaaa-aa" "50")).state.transferStatus ≠
      "Transfer failed: " ++ "Call failed: Invalid principal argument" ∧
    (transferTokens Runtime.sample
      (State.sample
        { Actor.sample with
          transfer := fun _ _ => .error "Call failed: Invalid principal argument" }
        "aaaaa-aa" "50")).calls = [.transfer ⟨"aaaaa-aa"⟩ 50] := by
  decide

/-- C8, amended: for every transfer that passes the pre-flight validation, if the
remote transfer call throws with a message `m` that does not contain "Invalid
principal", `transferTokens` reports "Transfer failed: " followed by `m`, issues
no call besides the transfer call (no refresh) and leaves `balance` and
`icrcBalance` unchanged. -/
theorem transferTokens_transport_failure (rt : Runtime) (s : State) (actor : Actor)
    (recipient : Principal) (amount : Int) (m : String)
    (h : PassesPreflight rt s actor recipient amount)
    (hthrows : transferReply actor s.transferType recipient amount = .error m)
    (hplain : jsIncludes m "Invalid principal" = false) :
    (transferTokens rt s).state.transferStatus = "Transfer failed: " ++ m ∧
    (transferTokens rt s).calls = [transferCall s.transferType recipient amount] ∧
    (transferTokens rt s).raised = none ∧
    (transferTokens rt s).state.balance = s.balance ∧
    (transferTokens rt s).state.icrcBalance = s.icrcBalance := by
  rw [transferTokens_of_thrown rt h (Or.inl hthrows)]
  refine ⟨?_, rfl, rfl, rfl, rfl⟩
  simp [catchStatus, hplain]

/-- C8, witness: internal balance 100, amount 50, the transfer call throws with
the message `Network unreachable`. -/
theorem transferTokens_transport_failure_witness :
    (transferTokens Runtime.sample
      (State.sample { Actor.sample with transfer := fun _ _ => .error "Network unreachable" }
        "aaaaa-aa" "50")).state.transferStatus = "Transfer failed: Network unreachable" ∧
    (transferTokens Runtime.sample
      (State.sample { Actor.sample with transfer := fun _ _ => .error "Network unreachable" }
        "aaaaa-aa" "50")).calls = [.transfer ⟨"aaaaa-aa"⟩ 50] ∧
    (transferTokens Runtime.sample
      (State.sample { Actor.sample with transfer := fun _ _ => .error "Network unreachable" }
        "aaaaa-aa" "50")).state.balance = .fin 100 :=
  ⟨(transferTokens_transport_failure Runtime.sample
      (State.sample { Actor.sample with transfer := fun _ _ => .error "Network unreachable" }
        "aaaaa-aa" "50")
      { Actor.sample with transfer := fun _ _ => .error "Network unreachable" }
      ⟨"aaaaa-aa"⟩ 50 "Network unreachable"
      ⟨⟨rfl, by decide, by decide, by decide, by decide, by decide, by decide⟩, rfl⟩ rfl
      (by decide)).1,
   (transferTokens_transport_failure Runtime.sample
      (State.sample { Actor.sample with transfer := fun _ _ => .error "Network unreachable" }
        "aaaaa-aa" "50")
      { Actor.sample with transfer := fun _ _ => .error "Network unreachable" }
      ⟨"aaaaa-aa"⟩ 50 "Network unreachable"
      ⟨⟨rfl, by decide, by decide, by decide, by decide, by decide, by decide⟩, rfl⟩ rfl
      (by decide)).2.1,
   (transferTokens_transport_failure Runtime.sample
      (State.sample { Actor.sample with transfer := fun _ _ => .error "Network unreachable" }
        "aaaaa-aa" "50")
      { Actor.sample with transfer := fun _ _ => .error "Network unreachable" }
      ⟨"aaaaa-aa"⟩ 50 "Network unreachable"
      ⟨⟨rfl, by decide, by decide, by decide, by decide, by decide, by decide⟩, rfl⟩ rfl
      (by decide)).2.2.2.1⟩

/-! ## Refresh after a transfer -/

/-- C9, counterexample: the transfer call resolves to `Ok` and the `get_balance`
call of the refresh throws; `transferTokens` resolves having issued
`get_balance` once and `get_transaction_history` not at all. -/
theorem transferTokens_ok_refetch_counterexample :
    (transferTokens Runtime.sample
      (State.sample { Actor.sample with get_balance := .error "Network unreachable" }
        "aaaaa-aa" "50")).calls = [.transfer ⟨"aaaaa-aa"⟩ 50, .get_balance] ∧
    (transferTokens Runtime.sample
      (State.sample { Actor.sample with get_balance := .error "Network unreachable" }
        "aaaaa-aa" "50")).calls.count .get_transaction_history = 0 ∧
    (transferTokens Runtime.sample
      (State.sample { Actor.sample with get_balance := .error "Network unreachable" }
        "aaaaa-aa" "50")).raised = none := by
  decide

/-- C9, amended: for every transfer that passes the pre-flight validation and
whose remote call resolves to `Ok`, `transferTokens` resolves having called
`get_balance` exactly once, however the refresh calls answer; it has called
`get_transaction_history` exactly once when the `get_balance` call succeeded,
and not at all when the `get_balance` call failed. -/
theorem transferTokens_ok_refetch (rt : Runtime) (s : State) (actor : Actor)
    (recipient : Principal) (amount : Int)
    (h : PassesPreflight rt s actor recipient amount)
    (hreply : transferReply actor s.transferType recipient amount = .ok .Ok) :
    (transferTokens rt s).raised = none ∧
    (transferTokens rt s).calls.count .get_balance = 1 ∧
    ((∃ b, actor.get_balance = .ok b) →
      (transferTokens rt s).calls.count .get_transaction_history = 1) ∧
    ((∃ m, actor.get_balance = .error m) →
      (transferTokens rt s).calls.count .get_transaction_history = 0) := by
  rw [transferTokens_of_ok rt h hreply]
  refine ⟨rfl, ?_, ?_, ?_⟩ <;> simp only [fetchTokenData_calls]
  · cases actor.get_balance <;> cases actor.get_transaction_history <;>
      cases s.transferType <;> simp [transferCall, List.count_cons]
  · rintro ⟨b, hb⟩
    rw [hb]
    cases actor.get_transaction_history <;>
      cases s.transferType <;> simp [transferCall, List.count_cons]
  · rintro ⟨m, hm⟩
    rw [hm]
    cases s.transferType <;> simp [transferCall, List.count_cons]

/-- C9, witness: internal balance 100, amount 50, every call succeeds. -/
theorem transferTokens_ok_refetch_witness :
    (transferTokens Runtime.sample (State.sample Actor.sample "aaaaa-aa" "50")).calls.count
      .get_balance = 1 ∧
    (transferTokens Runtime.sample (State.sample Actor.sample "aaaaa-aa" "50")).calls.count
      .get_transaction_history = 1 :=
  ⟨(transferTokens_ok_refetch Runtime.sample (State.sample Actor.sample "aaaaa-aa" "50")
      Actor.sample ⟨"aaaaa-aa"⟩ 50
      ⟨⟨rfl, by decide, by decide, by decide, by decide, by decide, by decide⟩, rfl⟩ rfl).2.1,
   (transferTokens_ok_refetch Runtime.sample (State.sample Actor.sample "aaaaa-aa" "50")
      Actor.sample ⟨"aaaaa-aa"⟩ 50
      ⟨⟨rfl, by decide, by decide, by decide, by decide, by decide, by decide⟩, rfl⟩
      rfl).2.2.1 ⟨75, rfl⟩⟩

/-! ## Refresh: the external-balance probe -/

/-- The throwing half of C10: when `get_balance` and `get_transaction_history`
succeed and the `get_icrc_balance` call throws, the refresh resolves, stores the
fetched balance and history, and ends with `icrcBalance` absent. -/
theorem fetchTokenData_probe_throws (actor : Actor) (s : State) (b : Nat)
    (history : List TransactionRecord) (m : String)
    (hb : actor.get_balance = .ok b)
    (hh : actor.get_transaction_history = .ok history)
    (hp : actor.get_icrc_balance = .error m) :
    (fetchTokenData (some actor) s).raised = none ∧
    (fetchTokenData (some actor) s).state.balance = toDouble b ∧
    (fetchTokenData (some actor) s).state.transactionHistory = history ∧
    (fetchTokenData (some actor) s).state.icrcBalance = none := by
  simp [fetchTokenData, hb, hh, hp]

/-- C10, at the failing input: when `get_balance` and `get_transaction_history`
succeed and the `get_icrc_balance` call resolves to an `Err` result, the refresh
resolves and stores the fetched balance and history, but `icrcBalance` keeps the
value it had before the refresh; it is not reset to absent. -/
theorem fetchTokenData_probe_err (actor : Actor) (s : State) (b : Nat)
    (history : List TransactionRecord) (e : String)
    (hb : actor.get_balance = .ok b)
    (hh : actor.get_transaction_history = .ok history)
    (hp : actor.get_icrc_balance = .ok (.Err e)) :
    (fetchTokenData (some actor) s).raised = none ∧
    (fetchTokenData (some actor) s).state.balance = toDouble b ∧
    (fetchTokenData (some actor) s).state.transactionHistory = history ∧
    (fetchTokenData (some actor) s).state.icrcBalance = s.icrcBalance := by
  simp [fetchTokenData, hb, hh, hp]

/-- C10, witness: the state holds an external balance of 500 and the probe
resolves to `Err`; after the refresh the external balance is still 500. -/
theorem fetchTokenData_probe_err_witness :
    (fetchTokenData
      (some { Actor.sample with get_icrc_balance := .ok (.Err "ledger not configured") })
      { State.sample Actor.sample "" "" with icrcBalance := some 500 }).state.icrcBalance =
      some 500 ∧
    (fetchTokenData
      (some { Actor.sample with get_icrc_balance := .ok (.Err "ledger not configured") })
      { State.sample Actor.sample "" "" with icrcBalance := some 500 }).state.balance =
      .fin 75 :=
  ⟨(fetchTokenData_probe_err
      { Actor.sample with get_icrc_balance := .ok (.Err "ledger not configured") }
      { State.sample Actor.sample "" "" with icrcBalance := some 500 } 75 []
      "ledger not configured" rfl rfl rfl).2.2.2,
   (fetchTokenData_probe_err
      { Actor.sample with get_icrc_balance := .ok (.Err "ledger not configured") }
      { State.sample Actor.sample "" "" with icrcBalance := some 500 } 75 []
      "ledger not configured" rfl rfl rfl).2.1⟩

/-! ## Refresh: failure of the balance query -/

/-- C11, counterexample: the `get_balance` call throws; the refresh resolves
without an error, reports nothing (the status stays empty) and returns the state
it was given: its caller cannot tell the failure from a success. -/
theorem fetchTokenData_balance_failure_counterexample :
    (fetchTokenData (some { Actor.sample with get_balance := .error "Network unreachable" })
      (State.sample Actor.sample "" "")).raised = none ∧
    (fetchTokenData (some { Actor.sample with get_balance := .error "Network unreachable" })
      (State.sample Actor.sample "" "")).state.transferStatus = "" ∧
    (fetchTokenData (some { Actor.sample with get_balance := .error "Network unreachable" })
      (State.sample Actor.sample "" "")).state.balance = .fin 100 :=
  ⟨rfl, rfl, rfl⟩

/-- C11, amended: when the `get_balance` call fails during `fetchTokenData`, the
refresh ends there: `get_balance` is the only call issued, and the state
(`balance`, `transactionHistory` and `icrcBalance` included) is left exactly as
it was. The failure is logged and not surfaced: the refresh resolves normally. -/
theorem fetchTokenData_balance_failure (actor : Actor) (s : State) (m : String)
    (hfails : actor.get_balance = .error m) :
    (fetchTokenData (some actor) s).calls = [.get_balance] ∧
    (fetchTokenData (some actor) s).state = s ∧
    (fetchTokenData (some actor) s).raised = none := by
  simp [fetchTokenData, hfails]

/-- C11, witness: internal balance 100, the `get_balance` call throws. -/
theorem fetchTokenData_balance_failure_witness :
    (fetchTokenData (some { Actor.sample with get_balance := .error "Network unreachable" })
      (State.sample Actor.sample "" "")).calls = [.get_balance] ∧
    (fetchTokenData (some { Actor.sample with get_balance := .error "Network unreachable" })
      (State.sample Actor.sample "" "")).state = State.sample Actor.sample "" "" ∧
    (fetchTokenData (some { Actor.sample with get_balance := .error "Network unreachable" })
      (State.sample Actor.sample "" "")).raised = none :=
  fetchTokenData_balance_failure
    { Actor.sample with get_balance := .error "Network unreachable" }
    (State.sample Actor.sample "" "") "Network unreachable" rfl

/-! ## Ledger configuration -/

/-- A configuration request with a bound actor and a non-blank ledger id reaches
the `try` block. -/
theorem configureIcrcLedger_of_given (rt : Runtime) {s : State} {actor : Actor}
    (hactor : s.actor = some actor)
    (hgiven : truthy (jsTrim s.icrcLedgerCanisterId) = true) :
    configureIcrcLedger rt s = settleConfigure (configureTry rt actor s.dispatching) := by
  unfold configureIcrcLedger
  simp only [hactor, hgiven, State.dispatching]
  simp

/-- C12: for every state with a bound actor and a non-blank ledger id text on
whose trimmed form `Principal.fromText` throws, `configureIcrcLedger` reports
"Invalid canister ID format", issues no remote call and ends with the busy flag
false. -/
theorem configureIcrcLedger_invalid_format (rt : Runtime) (s : State) (actor : Actor)
    (m : String)
    (hactor : s.actor = some actor)
    (hgiven : truthy (jsTrim s.icrcLedgerCanisterId) = true)
    (hthrows : rt.fromText (jsTrim s.icrcLedgerCanisterId) = .error m) :
    (configureIcrcLedger rt s).state.transferStatus = "Invalid canister ID format" ∧
    (configureIcrcLedger rt s).calls = [] ∧
    (configureIcrcLedger rt s).state.isLoading = false ∧
    (configureIcrcLedger rt s).raised = none := by
  rw [configureIcrcLedger_of_given rt hactor hgiven]
  have hthrows1 : rt.fromText (jsTrim s.dispatching.icrcLedgerCanisterId) = .error m := hthrows
  simp [configureTry, hthrows1, settleConfigure]

/-- C12, witness: the ledger id text `not a principal!`, rejected by
`Principal.fromText`. -/
theorem configureIcrcLedger_invalid_format_witness :
    (configureIcrcLedger (Runtime.rejecting "Invalid character \"!\"")
      { State.sample Actor.sample "" "" with
        icrcLedgerCanisterId := "not a principal!" }).state.transferStatus =
      "Invalid canister ID format" ∧
    (configureIcrcLedger (Runtime.rejecting "Invalid character \"!\"")
      { State.sample Actor.sample "" "" with
        icrcLedgerCanisterId := "not a principal!" }).calls = [] ∧
    (configureIcrcLedger (Runtime.rejecting "Invalid character \"!\"")
      { State.sample Actor.sample "" "" with
        icrcLedgerCanisterId := "not a principal!" }).state.isLoading = false ∧
    (configureIcrcLedger (Runtime.rejecting "Invalid character \"!\"")
      { State.sample Actor.sample "" "" with
        icrcLedgerCanisterId := "not a principal!" }).raised = none :=
  configureIcrcLedger_invalid_format (Runtime.rejecting "Invalid character \"!\"")
    { State.sample Actor.sample "" "" with icrcLedgerCanisterId := "not a principal!" }
    Actor.sample "Invalid character \"!\"" rfl (by decide) rfl

/-- The `Ok` half of C13: for a bound actor and a ledger id that parses to the
principal `ledger`, when the configuration call resolves to an `Ok` wrapper
`configureIcrcLedger` reports success, hides the configuration form and runs the
refresh (whose first call, `get_balance`, follows the configuration call). -/
theorem configureIcrcLedger_ok_success (rt : Runtime) (s : State) (actor : Actor)
    (ledger : Principal)
    (hactor : s.actor = some actor)
    (hgiven : truthy (jsTrim s.icrcLedgerCanisterId) = true)
    (hvalid : rt.fromText (jsTrim s.icrcLedgerCanisterId) = .ok ledger)
    (hreply : actor.set_icrc_ledger_canister_id ledger = .ok .Ok) :
    (configureIcrcLedger rt s).state.transferStatus = "ICRC ledger configured successfully!" ∧
    (configureIcrcLedger rt s).state.showLedgerConfig = false ∧
    (configureIcrcLedger rt s).calls.take 2 =
      [.set_icrc_ledger_canister_id ledger, .get_balance] := by
  rw [configureIcrcLedger_of_given rt hactor hgiven]
  have hvalid1 : rt.fromText (jsTrim s.dispatching.icrcLedgerCanisterId) = .ok ledger := hvalid
  have hactor1 : s.dispatching.actor = some actor := hactor
  simp only [configureTry, hvalid1, hreply, ConfigResult.hasKey, hactor1]
  simp only [beq_self_eq_true, Bool.true_or, if_true, settleConfigure, fetchTokenData_raised]
  refine ⟨?_, ?_, ?_⟩
  · exact (fetchTokenData_frame _ _).1
  · simp [fetchTokenData]
    repeat' split
    all_goals rfl
  · rw [fetchTokenData_calls]
    split <;> rfl

/-- C13, at the failing input: for a bound actor and a ledger id that parses to
the principal `ledger`, when the configuration call resolves to `undefined` the
`in` operator throws; `configureIcrcLedger` reports "Invalid canister ID format",
leaves the configuration form as it was and issues no refresh call. -/
theorem configureIcrcLedger_undefined_result (rt : Runtime) (s : State) (actor : Actor)
    (ledger : Principal)
    (hactor : s.actor = some actor)
    (hgiven : truthy (jsTrim s.icrcLedgerCanisterId) = true)
    (hvalid : rt.fromText (jsTrim s.icrcLedgerCanisterId) = .ok ledger)
    (hreply : actor.set_icrc_ledger_canister_id ledger = .ok .undefined) :
    (configureIcrcLedger rt s).state.transferStatus = "Invalid canister ID format" ∧
    (configureIcrcLedger rt s).state.showLedgerConfig = s.showLedgerConfig ∧
    (configureIcrcLedger rt s).calls = [.set_icrc_ledger_canister_id ledger] := by
  rw [configureIcrcLedger_of_given rt hactor hgiven]
  have hvalid1 : rt.fromText (jsTrim s.dispatching.icrcLedgerCanisterId) = .ok ledger := hvalid
  simp only [configureTry, hvalid1, hreply, ConfigResult.hasKey]
  simp [settleConfigure, State.dispatching]

/-- C13, witness: the ledger id `ryjl3-tyaaa-aaaaa-aaaba-cai` with the form open,
the configuration call resolves to `undefined`. -/
theorem configureIcrcLedger_undefined_result_witness :
    (configureIcrcLedger Runtime.sample
      { State.sample
          { Actor.sample with set_icrc_ledger_canister_id := fun _ => .ok .undefined } "" "" with
        icrcLedgerCanisterId := "ryjl3-tyaaa-aaaaa-aaaba-cai"
        showLedgerConfig := true }).state.transferStatus = "Invalid canister ID format" ∧
    (configureIcrcLedger Runtime.sample
      { State.sample
          { Actor.sample with set_icrc_ledger_canister_id := fun _ => .ok .undefined } "" "" with
        icrcLedgerCanisterId := "ryjl3-tyaaa-aaaaa-aaaba-cai"
        showLedgerConfig := true }).state.showLedgerConfig = true ∧
    (configureIcrcLedger Runtime.sample
      { State.sample
          { Actor.sample with set_icrc_ledger_canister_id := fun _ => .ok .undefined } "" "" with
        icrcLedgerCanisterId := "ryjl3-tyaaa-aaaaa-aaaba-cai"
        showLedgerConfig := true }).calls =
      [.set_icrc_ledger_canister_id ⟨"ryjl3-tyaaa-aaaaa-aaaba-cai"⟩] :=
  configureIcrcLedger_undefined_result Runtime.sample
    { State.sample
        { Actor.sample with set_icrc_ledger_canister_id := fun _ => .ok .undefined } "" "" with
      icrcLedgerCanisterId := "ryjl3-tyaaa-aaaaa-aaaba-cai"
      showLedgerConfig := true }
    { Actor.sample with set_icrc_ledger_canister_id := fun _ => .ok .undefined }
    ⟨"ryjl3-tyaaa-aaaaa-aaaba-cai"⟩ rfl (by decide) rfl rfl

/-- C14: for a bound actor and a ledger id that parses to the principal
`ledger`, when the configuration call resolves to an `Err` wrapper
`configureIcrcLedger` reports "Failed to configure ICRC ledger", issues no call
besides the configuration call (no refresh) and leaves `balance`, `icrcBalance`
and `transactionHistory` unchanged. -/
theorem configureIcrcLedger_rejected (rt : Runtime) (s : State) (actor : Actor)
    (ledger : Principal) (e : String)
    (hactor : s.actor = some actor)
    (hgiven : truthy (jsTrim s.icrcLedgerCanisterId) = true)
    (hvalid : rt.fromText (jsTrim s.icrcLedgerCanisterId) = .ok ledger)
    (hreply : actor.set_icrc_ledger_canister_id ledger = .ok (.Err e)) :
    (configureIcrcLedger rt s).state.transferStatus = "Failed to configure ICRC ledger" ∧
    (configureIcrcLedger rt s).calls = [.set_icrc_ledger_canister_id ledger] ∧
    (configureIcrcLedger rt s).raised = none ∧
    (configureIcrcLedger rt s).state.balance = s.balance ∧
    (configureIcrcLedger rt s).state.icrcBalance = s.icrcBalance ∧
    (configureIcrcLedger rt s).state.transactionHistory = s.transactionHistory := by
  rw [configureIcrcLedger_of_given rt hactor hgiven]
  have hvalid1 : rt.fromText (jsTrim s.dispatching.icrcLedgerCanisterId) = .ok ledger := hvalid
  simp only [configureTry, hvalid1, hreply, ConfigResult.hasKey]
  simp [settleConfigure, ConfigResult.isUndefined, State.dispatching]

/-- C14, witness: the ledger id `ryjl3-tyaaa-aaaaa-aaaba-cai`, the backend
answers `Err`. -/
theorem configureIcrcLedger_rejected_witness :
    (configureIcrcLedger Runtime.sample
      { State.sample
          { Actor.sample with
            set_icrc_ledger_canister_id := fun _ => .ok (.Err "not a controller") } "" "" with
        icrcLedgerCanisterId := "ryjl3-tyaaa-aaaaa-aaaba-cai" }).state.transferStatus =
      "Failed to configure ICRC ledger" ∧
    (configureIcrcLedger Runtime.sample
      { State.sample
          { Actor.sample with
            set_icrc_ledger_canister_id := fun _ => .ok (.Err "not a controller") } "" "" with
        icrcLedgerCanisterId := "ryjl3-tyaaa-aaaaa-aaaba-cai" }).calls =
      [.set_icrc_ledger_canister_id ⟨"ryjl3-tyaaa-aaaaa-aaaba-cai"⟩] :=
  ⟨(configureIcrcLedger_rejected Runtime.sample
      { State.sample
          { Actor.sample with
            set_icrc_ledger_canister_id := fun _ => .ok (.Err "not a controller") } "" "" with
        icrcLedgerCanisterId := "ryjl3-tyaaa-aaaaa-aaaba-cai" }
      { Actor.sample with
        set_icrc_ledger_canister_id := fun _ => .ok (.Err "not a controller") }
      ⟨"ryjl3-tyaaa-aaaaa-aaaba-cai"⟩ "not a controller" rfl (by decide) rfl rfl).1,
   (configureIcrcLedger_rejected Runtime.sample
      { State.sample
          { Actor.sample with
            set_icrc_ledger_canister_id := fun _ => .ok (.Err "not a controller") } "" "" with
        icrcLedgerCanisterId := "ryjl3-tyaaa-aaaaa-aaaba-cai" }
      { Actor.sample with
        set_icrc_ledger_canister_id := fun _ => .ok (.Err "not a controller") }
      ⟨"ryjl3-tyaaa-aaaaa-aaaba-cai"⟩ "not a controller" rfl (by decide) rfl rfl).2.1⟩

/-! ## The session is written by `initAuth` only -/

/-- Holding the same session is transitive. -/
theorem SameSession.trans {s t u : State} (h1 : SameSession s t) (h2 : SameSession t u) :
    SameSession s u :=
  ⟨h2.1.trans h1.1, h2.2.1.trans h1.2.1, h2.2.2.trans h1.2.2⟩

/-- `fetchNotes` leaves the session alone. -/
theorem fetchNotes_session (backendActor : Option Actor) (s : State) :
    SameSession s (fetchNotes backendActor s).state := by
  unfold fetchNotes
  repeat' split
  all_goals exact ⟨rfl, rfl, rfl⟩

/-- `fetchTokenData` leaves the session alone. -/
theorem fetchTokenData_session (backendActor : Option Actor) (s : State) :
    SameSession s (fetchTokenData backendActor s).state := by
  unfold fetchTokenData
  repeat' split
  all_goals exact ⟨rfl, rfl, rfl⟩

/-- `checkIcrcLedgerConfig` leaves the session alone. -/
theorem checkIcrcLedgerConfig_session (backendActor : Option Actor) (s : State) :
    SameSession s (checkIcrcLedgerConfig backendActor s).state := by
  unfold checkIcrcLedgerConfig
  repeat' split
  all_goals exact ⟨rfl, rfl, rfl⟩

/-- `configureIcrcLedger` leaves the session alone. -/
theorem configureIcrcLedger_session (rt : Runtime) (s : State) :
    SameSession s (configureIcrcLedger rt s).state := by
  have htry : ∀ actor t, SameSession t (configureTry rt actor t).state := by
    intro actor t
    unfold configureTry
    repeat' split
    all_goals first
      | exact ⟨rfl, rfl, rfl⟩
      | exact SameSession.trans ⟨rfl, rfl, rfl⟩ (fetchTokenData_session _ _)
  have hsettle : ∀ r : Outcome, SameSession r.state (settleConfigure r).state := by
    intro r
    unfold settleConfigure
    split <;> exact ⟨rfl, rfl, rfl⟩
  have hdispatch : ∀ actor, SameSession s
      (settleConfigure (configureTry rt actor s.dispatching)).state := fun actor =>
    SameSession.trans (SameSession.trans ⟨rfl, rfl, rfl⟩ (htry actor s.dispatching)) (hsettle _)
  unfold configureIcrcLedger
  repeat' split
  all_goals first
    | exact ⟨rfl, rfl, rfl⟩
    | exact hdispatch _

/-- `transferTokens` leaves the session alone. -/
theorem transferTokens_session (rt : Runtime) (s : State) :
    SameSession s (transferTokens rt s).state := by
  have hinterpret : ∀ t result, SameSession t (interpretResult rt t result).state := by
    intro t result
    unfold interpretResult
    repeat' split
    all_goals first
      | exact ⟨rfl, rfl, rfl⟩
      | exact SameSession.trans ⟨rfl, rfl, rfl⟩ (fetchTokenData_session _ _)
  have htry : ∀ actor t amount, SameSession t (transferTry rt actor t amount).state := by
    intro actor t amount
    unfold transferTry
    repeat' split
    all_goals first
      | exact ⟨rfl, rfl, rfl⟩
      | exact hinterpret _ _
  have hsettle : ∀ r : Outcome, SameSession r.state (settleTransfer r).state := by
    intro r
    unfold settleTransfer
    split <;> exact ⟨rfl, rfl, rfl⟩
  have hdispatch : ∀ actor amount, SameSession s
      (settleTransfer (transferTry rt actor s.dispatching amount)).state := fun actor amount =>
    SameSession.trans (SameSession.trans ⟨rfl, rfl, rfl⟩ (htry actor s.dispatching amount))
      (hsettle _)
  unfold transferTokens
  dsimp only
  repeat' split
  all_goals first
    | exact ⟨rfl, rfl, rfl⟩
    | exact hdispatch _ _

/-- A re-fetch of the notes followed by `setIsLoading(false)` leaves the session
alone. -/
theorem fetchNotes_session_of {s t : State} (backendActor : Option Actor)
    (h : SameSession s t) :
    SameSession s { (fetchNotes backendActor t).state with isLoading := false } :=
  SameSession.trans (SameSession.trans h (fetchNotes_session backendActor t)) ⟨rfl, rfl, rfl⟩

/-- `addNote` leaves the session alone. -/
theorem addNote_session (s : State) : SameSession s (addNote s).state := by
  unfold addNote
  dsimp only
  repeat' split
  all_goals first
    | exact ⟨rfl, rfl, rfl⟩
    | exact fetchNotes_session_of _ ⟨rfl, rfl, rfl⟩

/-- `deleteNote` leaves the session alone. -/
theorem deleteNote_session (id : Nat) (s : State) : SameSession s (deleteNote id s).state := by
  unfold deleteNote
  dsimp only
  repeat' split
  all_goals first
    | exact ⟨rfl, rfl, rfl⟩
    | exact fetchNotes_session_of _ ⟨rfl, rfl, rfl⟩

/-- `updateNote` leaves the session alone. -/
theorem updateNote_session (s : State) : SameSession s (updateNote s).state := by
  unfold updateNote
  dsimp only
  repeat' split
  all_goals first
    | exact ⟨rfl, rfl, rfl⟩
    | exact fetchNotes_session_of _ ⟨rfl, rfl, rfl⟩

/-- `searchNotes` leaves the session alone. -/
theorem searchNotes_session (s : State) : SameSession s (searchNotes s).state := by
  unfold searchNotes
  dsimp only
  repeat' split
  all_goals first
    | exact ⟨rfl, rfl, rfl⟩
    | exact fetchNotes_session_of _ ⟨rfl, rfl, rfl⟩

/-- A form input leaves the session alone. -/
theorem FormInput.apply_session (i : FormInput) (s : State) : SameSession s (i.apply s) := by
  cases i <;> exact ⟨rfl, rfl, rfl⟩

/-! ## Initialisation, login and logout -/

/-- When a step of `initAuth` throws before its state updates, only the busy
flag is written. -/
theorem initAuth_of_failed (p : Provider) (s : State) (h : p.session = none) :
    initAuth p s = ⟨{ s with isLoading := false }, [], none⟩ := by
  cases hc : p.create with
  | error m => simp [initAuth, hc]
  | ok client =>
    cases hi : client.isAuthenticated with
    | error m => simp [initAuth, hc, hi]
    | ok isAuth =>
      cases ha : p.createActor client.identity with
      | error m => simp [initAuth, hc, hi, ha]
      | ok a => simp [Provider.session, hc, hi, ha] at h

/-- When the provider reports the identity as not authenticated, `initAuth`
binds the client and the anonymous actor and issues no call. -/
theorem initAuth_of_anonymous (p : Provider) (s : State) (client : AuthClient) (a : Actor)
    (h : p.session = some (client, false, a)) :
    initAuth p s =
      ⟨{ s with
          isLoading := false
          authClient := some client
          actor := some a
          isAuthenticated := false }, [], none⟩ := by
  cases hc : p.create with
  | error m => simp [Provider.session, hc] at h
  | ok c =>
    cases hi : c.isAuthenticated with
    | error m => simp [Provider.session, hc, hi] at h
    | ok isAuth =>
      cases ha : p.createActor c.identity with
      | error m => simp [Provider.session, hc, hi, ha] at h
      | ok b =>
        simp only [Provider.session, hc, hi, ha, Option.some.injEq, Prod.mk.injEq] at h
        obtain ⟨rfl, rfl, rfl⟩ := h
        simp [initAuth, hc, hi, ha]

/-- When the provider reports the identity as authenticated, `initAuth` binds
the client and the actor, records the principal and runs the three fetches on
the new actor. -/
theorem initAuth_of_authenticated (p : Provider) (s : State) (client : AuthClient) (a : Actor)
    (h : p.session = some (client, true, a)) :
    initAuth p s =
      ⟨{ (checkIcrcLedgerConfig (some a)
            (fetchTokenData (some a)
              (fetchNotes (some a)
                { s with
                  isLoading := true
                  authClient := some client
                  actor := some a
                  isAuthenticated := true
                  principal := client.identity.toText }).state).state).state with
          isLoading := false },
        (fetchNotes (some a)
            { s with
              isLoading := true
              authClient := some client
              actor := some a
              isAuthenticated := true
              principal := client.identity.toText }).calls ++
          (fetchTokenData (some a)
            (fetchNotes (some a)
              { s with
                isLoading := true
                authClient := some client
                actor := some a
                isAuthenticated := true
                principal := client.identity.toText }).state).calls ++
          (checkIcrcLedgerConfig (some a)
            (fetchTokenData (some a)
              (fetchNotes (some a)
                { s with
                  isLoading := true
                  authClient := some client
                  actor := some a
                  isAuthenticated := true
                  principal := client.identity.toText }).state).state).calls,
        none⟩ := by
  cases hc : p.create with
  | error m => simp [Provider.session, hc] at h
  | ok c =>
    cases hi : c.isAuthenticated with
    | error m => simp [Provider.session, hc, hi] at h
    | ok isAuth =>
      cases ha : p.createActor c.identity with
      | error m => simp [Provider.session, hc, hi, ha] at h
      | ok b =>
        simp only [Provider.session, hc, hi, ha, Option.some.injEq, Prod.mk.injEq] at h
        obtain ⟨rfl, rfl, rfl⟩ := h
        simp [initAuth, hc, hi, ha]

/-- Whenever the three steps of `initAuth` succeed, the client, the actor and
the authentication flag it leaves are the ones the provider gave. -/
theorem initAuth_session (p : Provider) (s : State) (client : AuthClient) (isAuth : Bool)
    (a : Actor) (h : p.session = some (client, isAuth, a)) :
    (initAuth p s).state.authClient = some client ∧
    (initAuth p s).state.actor = some a ∧
    (initAuth p s).state.isAuthenticated = isAuth := by
  cases isAuth with
  | false =>
    rw [initAuth_of_anonymous p s client a h]
    exact ⟨rfl, rfl, rfl⟩
  | true =>
    rw [initAuth_of_authenticated p s client a h]
    exact SameSession.trans (SameSession.trans (fetchNotes_session _ _)
      (fetchTokenData_session _ _)) (checkIcrcLedgerConfig_session _ _)

/-- The three fetches of the re-synchronisation leave the principal text alone. -/
theorem fetches_principal (a : Actor) (s : State) :
    (checkIcrcLedgerConfig (some a)
      (fetchTokenData (some a) (fetchNotes (some a) s).state).state).state.principal =
      s.principal := by
  have h1 : ∀ t, (fetchNotes (some a) t).state.principal = t.principal := by
    intro t
    unfold fetchNotes
    repeat' split
    all_goals rfl
  have h2 : ∀ t, (fetchTokenData (some a) t).state.principal = t.principal := by
    intro t
    unfold fetchTokenData
    repeat' split
    all_goals rfl
  have h3 : ∀ t, (checkIcrcLedgerConfig (some a) t).state.principal = t.principal := by
    intro t
    unfold checkIcrcLedgerConfig
    repeat' split
    all_goals rfl
  rw [h3, h2, h1]

/-- With a bound actor `fetchNotes` issues exactly the `get_notes` call. -/
theorem fetchNotes_calls (a : Actor) (s : State) :
    (fetchNotes (some a) s).calls = [.get_notes] := by
  simp only [fetchNotes]
  split <;> rfl

/-- With a bound actor `checkIcrcLedgerConfig` issues exactly the
`get_icrc_ledger_canister_id` call. -/
theorem checkIcrcLedgerConfig_calls (a : Actor) (s : State) :
    (checkIcrcLedgerConfig (some a) s).calls = [.get_icrc_ledger_canister_id] := by
  simp only [checkIcrcLedgerConfig]
  split <;> rfl

/-- C15, counterexample: a user signs in (`initAuth` against an authenticated
provider records the principal `w7x7r-cok77-xa`) and then logs out with every
call succeeding; the session is unauthenticated afterwards, but the principal
text is still `w7x7r-cok77-xa`, not empty. -/
theorem logout_counterexample :
    (run [.initAuth (Provider.sample true)] State.initial).isAuthenticated = true ∧
    (run [.initAuth (Provider.sample true)] State.initial).principal = "w7x7r-cok77-xa" ∧
    (logout (Provider.sample false)
      (run [.initAuth (Provider.sample true)] State.initial)).raised = none ∧
    (logout (Provider.sample false)
      (run [.initAuth (Provider.sample true)] State.initial)).state.isAuthenticated = false ∧
    (logout (Provider.sample false)
      (run [.initAuth (Provider.sample true)] State.initial)).state.principal =
      "w7x7r-cok77-xa" ∧
    (logout (Provider.sample false)
      (run [.initAuth (Provider.sample true)] State.initial)).state.principal ≠ "" := by
  decide

/-- C15, amended: from every authenticated state that holds a client, when
`authClient.logout()` succeeds and the provider then yields the client `fresh`,
reports it as not authenticated and binds the anonymous actor `anon`, `logout`
resolves with `isAuthenticated` false, the actor `anon` and the client `fresh`
bound, the busy flag false and no backend call issued; the principal text is not
written and keeps its previous value. -/
theorem logout_clears_session (p : Provider) (s : State) (client fresh : AuthClient)
    (anon : Actor)
    (_hauth : s.isAuthenticated = true)
    (hclient : s.authClient = some client)
    (hlogout : client.logout = .ok ())
    (hafter : p.session = some (fresh, false, anon)) :
    (logout p s).raised = none ∧
    (logout p s).calls = [] ∧
    (logout p s).state.isAuthenticated = false ∧
    (logout p s).state.actor = some anon ∧
    (logout p s).state.authClient = some fresh ∧
    (logout p s).state.isLoading = false ∧
    (logout p s).state.principal = s.principal := by
  unfold logout
  simp only [hclient, hlogout]
  rw [initAuth_of_anonymous p _ fresh anon hafter]
  exact ⟨rfl, rfl, rfl, rfl, rfl, rfl, rfl⟩

/-- C15, witness: the signed-in user of the counterexample logs out. -/
theorem logout_clears_session_witness :
    (logout (Provider.sample false)
      (run [.initAuth (Provider.sample true)] State.initial)).state.isAuthenticated = false ∧
    (logout (Provider.sample false)
      (run [.initAuth (Provider.sample true)] State.initial)).state.actor =
      some Actor.sample ∧
    (logout (Provider.sample false)
      (run [.initAuth (Provider.sample true)] State.initial)).state.isLoading = false :=
  ⟨(logout_clears_session (Provider.sample false)
      (run [.initAuth (Provider.sample true)] State.initial)
      (AuthClient.sample true) (AuthClient.sample false) Actor.sample
      (by decide) rfl rfl rfl).2.2.1,
   (logout_clears_session (Provider.sample false)
      (run [.initAuth (Provider.sample true)] State.initial)
      (AuthClient.sample true) (AuthClient.sample false) Actor.sample
      (by decide) rfl rfl rfl).2.2.2.1,
   (logout_clears_session (Provider.sample false)
      (run [.initAuth (Provider.sample true)] State.initial)
      (AuthClient.sample true) (AuthClient.sample false) Actor.sample
      (by decide) rfl rfl rfl).2.2.2.2.2.1⟩

/-- Every action keeps "authenticated implies bound". -/
theorem step_bound (a : Action) (s : State)
    (h : s.isAuthenticated = true → s.actor.isSome = true) :
    (a.step s).isAuthenticated = true → (a.step s).actor.isSome = true := by
  have hsame : ∀ t, SameSession s t → t.isAuthenticated = true → t.actor.isSome = true := by
    intro t ht hauth
    rw [ht.2.1]
    exact h (ht.2.2 ▸ hauth)
  have hinit : ∀ p (t : State), SameSession s t →
      (initAuth p t).state.isAuthenticated = true → (initAuth p t).state.actor.isSome = true := by
    intro p t ht hauth
    cases hp : p.session with
    | none =>
      rw [initAuth_of_failed p t hp] at hauth ⊢
      exact hsame _ (SameSession.trans ht ⟨rfl, rfl, rfl⟩) hauth
    | some triple =>
      obtain ⟨client, isAuth, b⟩ := triple
      rw [(initAuth_session p t client isAuth b hp).2.1]
      rfl
  cases a with
  | initAuth p => exact hinit p s ⟨rfl, rfl, rfl⟩
  | login p =>
    simp only [Action.step, login]
    repeat' split
    all_goals first
      | exact hsame _ ⟨rfl, rfl, rfl⟩
      | exact hinit p _ ⟨rfl, rfl, rfl⟩
  | logout p =>
    simp only [Action.step, logout]
    repeat' split
    all_goals first
      | exact hsame _ ⟨rfl, rfl, rfl⟩
      | exact hinit p _ ⟨rfl, rfl, rfl⟩
  | fetchNotes => exact hsame _ (fetchNotes_session _ _)
  | fetchTokenData => exact hsame _ (fetchTokenData_session _ _)
  | checkIcrcLedgerConfig => exact hsame _ (checkIcrcLedgerConfig_session _ _)
  | configureIcrcLedger rt => exact hsame _ (configureIcrcLedger_session rt s)
  | transferTokens rt => exact hsame _ (transferTokens_session rt s)
  | addNote => exact hsame _ (addNote_session s)
  | deleteNote id => exact hsame _ (deleteNote_session id s)
  | startEditing id content => exact hsame _ ⟨rfl, rfl, rfl⟩
  | updateNote => exact hsame _ (updateNote_session s)
  | searchNotes => exact hsame _ (searchNotes_session s)
  | input i => exact hsame _ (FormInput.apply_session i s)

/-- Every sequence of actions keeps "authenticated implies bound". -/
theorem run_bound (actions : List Action) (s : State)
    (h : s.isAuthenticated = true → s.actor.isSome = true) :
    (run actions s).isAuthenticated = true → (run actions s).actor.isSome = true := by
  induction actions generalizing s with
  | nil => exact h
  | cons a rest ih => exact ih (a.step s) (step_bound a s h)

/-- C16: in every state reached from the initial state by a sequence of
`initAuth`, `login`, `logout`, data operations and form inputs, an authenticated
session has a bound actor. `initAuth` writes the actor and the authentication
flag together: when its three preparatory steps succeed both take the values the
provider gave, and when one of them throws both keep their previous values. -/
theorem session_bound_invariant :
    (∀ actions : List Action,
      (run actions State.initial).isAuthenticated = false ∨
        (run actions State.initial).actor.isSome = true) ∧
    (∀ (p : Provider) (s : State) (client : AuthClient) (isAuth : Bool) (a : Actor),
      p.session = some (client, isAuth, a) →
        (initAuth p s).state.actor = some a ∧ (initAuth p s).state.isAuthenticated = isAuth) ∧
    (∀ (p : Provider) (s : State), p.session = none →
      (initAuth p s).state.actor = s.actor ∧
        (initAuth p s).state.isAuthenticated = s.isAuthenticated) := by
  refine ⟨?_, ?_, ?_⟩
  · intro actions
    cases hauth : (run actions State.initial).isAuthenticated with
    | false => exact Or.inl rfl
    | true =>
      exact Or.inr (run_bound actions State.initial (fun h => by cases h) hauth)
  · intro p s client isAuth a h
    exact (initAuth_session p s client isAuth a h).2
  · intro p s h
    rw [initAuth_of_failed p s h]
    exact ⟨rfl, rfl⟩

/-- C19: whenever the three preparatory steps of `initAuth` succeed, it
resolves with the actor bound, the flag the provider reported and the busy flag
false. If the identity is reported as authenticated it records the principal and
issues `get_notes`, then the calls of the token refresh (`get_balance`, then
`get_transaction_history` if that succeeded, then `get_icrc_balance` if that
succeeded too), then `get_icrc_ledger_canister_id`, and it stores what they
answer: the notes fetched, the balance as a double, the history, the external
balance (absent when its query throws) and the text of the configured ledger; a
value whose query fails or is not reached stays as it was. If the identity is
reported as not authenticated it issues no call and writes nothing but the
client, the anonymous actor, the flag `false` and the busy flag. -/
theorem initAuth_resync (p : Provider) (s : State) (client : AuthClient) (isAuth : Bool)
    (a : Actor) (h : p.session = some (client, isAuth, a)) :
    (initAuth p s).raised = none ∧
    (initAuth p s).state.actor = some a ∧
    (initAuth p s).state.isAuthenticated = isAuth ∧
    (initAuth p s).state.isLoading = false ∧
    (isAuth = true →
      (initAuth p s).calls =
        .get_notes ::
          (match a.get_balance, a.get_transaction_history with
            | .error _, _ => [.get_balance]
            | .ok _, .error _ => [.get_balance, .get_transaction_history]
            | .ok _, .ok _ => [.get_balance, .get_transaction_history, .get_icrc_balance]) ++
          [.get_icrc_ledger_canister_id] ∧
      (initAuth p s).state.principal = client.identity.toText ∧
      (initAuth p s).state.notes =
        (match a.get_notes with
          | .ok fetched => fetched
          | .error _ => s.notes) ∧
      (initAuth p s).state.balance =
        (match a.get_balance with
          | .ok userBalance => toDouble userBalance
          | .error _ => s.balance) ∧
      (initAuth p s).state.transactionHistory =
        (match a.get_balance, a.get_transaction_history with
          | .ok _, .ok history => history
          | _, _ => s.transactionHistory) ∧
      (initAuth p s).state.icrcBalance =
        (match a.get_balance, a.get_transaction_history, a.get_icrc_balance with
          | .ok _, .ok _, .ok (.Ok value) => some (value : Int)
          | .ok _, .ok _, .error _ => none
          | _, _, _ => s.icrcBalance) ∧
      (initAuth p s).state.icrcLedgerCanisterId =
        (match a.get_icrc_ledger_canister_id with
          | .ok (some ledgerId) => ledgerId.toText
          | _ => s.icrcLedgerCanisterId)) ∧
    (isAuth = false →
      (initAuth p s).calls = [] ∧
      (initAuth p s).state.principal = s.principal ∧
      (initAuth p s).state =
        { s with
          isLoading := false
          authClient := some client
          actor := some a
          isAuthenticated := false }) := by
  refine ⟨?_, (initAuth_session p s client isAuth a h).2.1,
    (initAuth_session p s client isAuth a h).2.2, ?_, ?_, ?_⟩
  · cases isAuth with
    | false => rw [initAuth_of_anonymous p s client a h]
    | true => rw [initAuth_of_authenticated p s client a h]
  · cases isAuth with
    | false => rw [initAuth_of_anonymous p s client a h]
    | true => rw [initAuth_of_authenticated p s client a h]
  · rintro rfl
    rw [initAuth_of_authenticated p s client a h]
    refine ⟨?_, fetches_principal a _, ?_⟩
    · simp only [fetchNotes_calls, checkIcrcLedgerConfig_calls, fetchTokenData_calls]
      rfl
    · rcases hn : a.get_notes with _ | fetched <;>
      rcases hb : a.get_balance with _ | userBalance <;>
      rcases hh : a.get_transaction_history with _ | history <;>
      rcases hi : a.get_icrc_balance with _ | (_ | _) <;>
      rcases hl : a.get_icrc_ledger_canister_id with _ | (_ | _) <;>
      simp [fetchNotes, fetchTokenData, checkIcrcLedgerConfig, hn, hb, hh, hi, hl]
  · rintro rfl
    rw [initAuth_of_anonymous p s client a h]
    exact ⟨rfl, rfl, rfl⟩

/-- C19, witness: `initAuth` from the initial state, against a provider that
reports an authenticated identity, whose backend holds one note, a balance of
75, one transaction record, an external balance of 20 and a configured ledger,
and against one that does not. -/
theorem initAuth_resync_witness :
    (initAuth Provider.stocked State.initial).calls =
      [.get_notes, .get_balance, .get_transaction_history, .get_icrc_balance,
        .get_icrc_ledger_canister_id] ∧
    (initAuth Provider.stocked State.initial).state.principal = "w7x7r-cok77-xa" ∧
    (initAuth Provider.stocked State.initial).state.notes = [⟨1, "milk"⟩] ∧
    (initAuth Provider.stocked State.initial).state.balance = .fin 75 ∧
    (initAuth Provider.stocked State.initial).state.transactionHistory =
      [⟨⟨"w7x7r-cok77-xa"⟩, ⟨"aaaaa-aa"⟩, 25, 1700000000, .internal, none⟩] ∧
    (initAuth Provider.stocked State.initial).state.icrcBalance = some 20 ∧
    (initAuth Provider.stocked State.initial).state.icrcLedgerCanisterId =
      "ryjl3-tyaaa-aaaaa-aaaba-cai" ∧
    (initAuth (Provider.sample false) State.initial).calls = [] ∧
    (initAuth (Provider.sample false) State.initial).state.isAuthenticated = false ∧
    (initAuth (Provider.sample false) State.initial).state.isLoading = false :=
  ⟨((initAuth_resync Provider.stocked State.initial (AuthClient.sample true) true
      Actor.stocked rfl).2.2.2.2.1 rfl).1,
   ((initAuth_resync Provider.stocked State.initial (AuthClient.sample true) true
      Actor.stocked rfl).2.2.2.2.1 rfl).2.1,
   ((initAuth_resync Provider.stocked State.initial (AuthClient.sample true) true
      Actor.stocked rfl).2.2.2.2.1 rfl).2.2.1,
   ((initAuth_resync Provider.stocked State.initial (AuthClient.sample true) true
      Actor.stocked rfl).2.2.2.2.1 rfl).2.2.2.1.trans (by decide),
   ((initAuth_resync Provider.stocked State.initial (AuthClient.sample true) true
      Actor.stocked rfl).2.2.2.2.1 rfl).2.2.2.2.1,
   ((initAuth_resync Provider.stocked State.initial (AuthClient.sample true) true
      Actor.stocked rfl).2.2.2.2.1 rfl).2.2.2.2.2.1,
   ((initAuth_resync Provider.stocked State.initial (AuthClient.sample true) true
      Actor.stocked rfl).2.2.2.2.1 rfl).2.2.2.2.2.2,
   ((initAuth_resync (Provider.sample false) State.initial (AuthClient.sample false) false
      Actor.sample rfl).2.2.2.2.2 rfl).1,
   (initAuth_resync (Provider.sample false) State.initial (AuthClient.sample false) false
      Actor.sample rfl).2.2.1,
   (initAuth_resync (Provider.sample false) State.initial (AuthClient.sample false) false
      Actor.sample rfl).2.2.2.1⟩

/-! ## Operations on an unbound or unauthenticated session -/

/-- C17, counterexample: after `initAuth` against a provider that reports the
identity as not authenticated, the session is unauthenticated with the anonymous
actor bound; `fetchNotes`, `fetchTokenData` and `addNote` (with the note text
`hello`) then issue their remote calls. -/
theorem unauthenticated_counterexample :
    (run [.initAuth (Provider.sample false)] State.initial).isAuthenticated = false ∧
    (fetchNotes (run [.initAuth (Provider.sample false)] State.initial).actor
      (run [.initAuth (Provider.sample false)] State.initial)).calls = [.get_notes] ∧
    (fetchTokenData (run [.initAuth (Provider.sample false)] State.initial).actor
      (run [.initAuth (Provider.sample false)] State.initial)).calls =
      [.get_balance, .get_transaction_history, .get_icrc_balance] ∧
    (addNote (run [.initAuth (Provider.sample false), .input (.newNote "hello")]
      State.initial)).calls = [.add_note "hello", .get_notes] := by
  decide

/-- C17, amended: for every gateway operation, if the actor is unbound the
operation returns at once and issues zero remote calls: `fetchNotes`,
`fetchTokenData`, `checkIcrcLedgerConfig`, `addNote`, `deleteNote`, `updateNote`
and `searchNotes` leave the state as it was, `configureIcrcLedger` sets the
status "Please enter a valid canister ID" and `transferTokens` the status
"Please fill in all fields". -/
theorem unbound_no_calls (rt : Runtime) (s : State) (id : Nat) (hunbound : s.actor = none) :
    fetchNotes s.actor s = ⟨s, [], none⟩ ∧
    fetchTokenData s.actor s = ⟨s, [], none⟩ ∧
    checkIcrcLedgerConfig s.actor s = ⟨s, [], none⟩ ∧
    configureIcrcLedger rt s =
      ⟨{ s with transferStatus := "Please enter a valid canister ID" }, [], none⟩ ∧
    transferTokens rt s = ⟨{ s with transferStatus := "Please fill in all fields" }, [], none⟩ ∧
    addNote s = ⟨s, [], none⟩ ∧
    deleteNote id s = ⟨s, [], none⟩ ∧
    updateNote s = ⟨s, [], none⟩ ∧
    searchNotes s = ⟨s, [], none⟩ := by
  refine ⟨?_, ?_, ?_, ?_, ?_, ?_, ?_, ?_, ?_⟩
  · simp [fetchNotes, hunbound]
  · simp [fetchTokenData, hunbound]
  · simp [checkIcrcLedgerConfig, hunbound]
  · simp [configureIcrcLedger, hunbound]
  · simp [transferTokens, hunbound]
  · simp [addNote, hunbound]
  · simp [deleteNote, hunbound]
  · simp [updateNote, hunbound]
  · simp [searchNotes, hunbound]

/-- C17, witness: in the initial state, where no actor is bound yet, a transfer
and a ledger configuration issue no call. -/
theorem unbound_no_calls_witness :
    (transferTokens Runtime.sample State.initial).calls = [] ∧
    (configureIcrcLedger Runtime.sample State.initial).calls = [] ∧
    (deleteNote 7 State.initial).calls = [] :=
  ⟨congrArg Outcome.calls (unbound_no_calls Runtime.sample State.initial 7 rfl).2.2.2.2.1,
   congrArg Outcome.calls (unbound_no_calls Runtime.sample State.initial 7 rfl).2.2.2.1,
   congrArg Outcome.calls (unbound_no_calls Runtime.sample State.initial 7 rfl).2.2.2.2.2.2.1⟩

/-! ## Notes: re-fetch after a mutation -/

/-- C18, counterexample: with a bound actor and the note text `hello`, the
`add_note` call throws; `addNote` ends without issuing `get_notes`. The same
holds for `deleteNote` and `updateNote` when their mutating call throws. -/
theorem notes_refetch_counterexample :
    (addNote (State.sample { Actor.sample with add_note := fun _ => .error "rejected" } "" ""
      |> FormInput.apply (.newNote "hello"))).calls = [.add_note "hello"] ∧
    RemoteCall.get_notes ∉
      (addNote (State.sample { Actor.sample with add_note := fun _ => .error "rejected" } "" ""
        |> FormInput.apply (.newNote "hello"))).calls ∧
    (deleteNote 7
      (State.sample { Actor.sample with delete_note := fun _ => .error "rejected" } "" "")).calls =
      [.delete_note 7] ∧
    (updateNote (startEditing 7 "edited"
      (State.sample { Actor.sample with update_note := fun _ _ => .error "rejected" }
        "" ""))).calls = [.update_note 7 "edited"] := by
  decide

/-- C18, amended: for `addNote` (non-blank content), `updateNote` (an editing id
set) and `deleteNote` with a bound actor: when the mutating call succeeds it is
followed, within the same operation, by exactly one `get_notes` call, whose
result replaces the notes collection when that call succeeds and leaves it as it
was when it fails; when the mutating call throws, no `get_notes` call is issued
and the collection is left as it was. The collection is never patched locally. -/
theorem notes_refetch (s : State) (actor : Actor) (id : Nat) (hactor : s.actor = some actor) :
    (truthy (jsTrim s.newNote) = true →
      ((∃ u, actor.add_note (jsTrim s.newNote) = .ok u) →
        (addNote s).calls = [.add_note (jsTrim s.newNote), .get_notes] ∧
        (∀ fetched, actor.get_notes = .ok fetched → (addNote s).state.notes = fetched) ∧
        (∀ m, actor.get_notes = .error m → (addNote s).state.notes = s.notes)) ∧
      ((∃ m, actor.add_note (jsTrim s.newNote) = .error m) →
        (addNote s).calls = [.add_note (jsTrim s.newNote)] ∧
        (addNote s).state.notes = s.notes)) ∧
    (s.editingNoteId = some id →
      ((∃ u, actor.update_note id s.editingContent = .ok u) →
        (updateNote s).calls = [.update_note id s.editingContent, .get_notes] ∧
        (∀ fetched, actor.get_notes = .ok fetched → (updateNote s).state.notes = fetched) ∧
        (∀ m, actor.get_notes = .error m → (updateNote s).state.notes = s.notes)) ∧
      ((∃ m, actor.update_note id s.editingContent = .error m) →
        (updateNote s).calls = [.update_note id s.editingContent] ∧
        (updateNote s).state.notes = s.notes)) ∧
    ((∃ u, actor.delete_note id = .ok u) →
      (deleteNote id s).calls = [.delete_note id, .get_notes] ∧
      (∀ fetched, actor.get_notes = .ok fetched → (deleteNote id s).state.notes = fetched) ∧
      (∀ m, actor.get_notes = .error m → (deleteNote id s).state.notes = s.notes)) ∧
    ((∃ m, actor.delete_note id = .error m) →
      (deleteNote id s).calls = [.delete_note id] ∧
      (deleteNote id s).state.notes = s.notes) := by
  refine ⟨?_, ?_, ?_, ?_⟩
  · intro hgiven
    refine ⟨?_, ?_⟩
    · rintro ⟨u, hu⟩
      refine ⟨?_, ?_, ?_⟩
      · simp [addNote, hactor, hgiven, hu, fetchNotes_calls]
      · intro fetched hf
        simp [addNote, hactor, hgiven, hu, fetchNotes, hf]
      · intro m hf
        simp [addNote, hactor, hgiven, hu, fetchNotes, hf]
    · rintro ⟨m, hm⟩
      simp [addNote, hactor, hgiven, hm]
  · intro hid
    refine ⟨?_, ?_⟩
    · rintro ⟨u, hu⟩
      refine ⟨?_, ?_, ?_⟩
      · simp [updateNote, hactor, hid, hu, fetchNotes_calls]
      · intro fetched hf
        simp [updateNote, hactor, hid, hu, fetchNotes, hf]
      · intro m hf
        simp [updateNote, hactor, hid, hu, fetchNotes, hf]
    · rintro ⟨m, hm⟩
      simp [updateNote, hactor, hid, hm]
  · rintro ⟨u, hu⟩
    refine ⟨?_, ?_, ?_⟩
    · simp [deleteNote, hactor, hu, fetchNotes_calls]
    · intro fetched hf
      simp [deleteNote, hactor, hu, fetchNotes, hf]
    · intro m hf
      simp [deleteNote, hactor, hu, fetchNotes, hf]
  · rintro ⟨m, hm⟩
    simp [deleteNote, hactor, hm]

/-- C18, witness: deleting note 7 on a backend that accepts the call and then
returns the single note `(1, kept)`. -/
theorem notes_refetch_witness :
    (deleteNote 7
      (State.sample { Actor.sample with get_notes := .ok [⟨1, "kept"⟩] } "" "")).calls =
      [.delete_note 7, .get_notes] ∧
    (deleteNote 7
      (State.sample { Actor.sample with get_notes := .ok [⟨1, "kept"⟩] } "" "")).state.notes =
      [⟨1, "kept"⟩] :=
  ⟨((notes_refetch
      (State.sample { Actor.sample with get_notes := .ok [⟨1, "kept"⟩] } "" "")
      { Actor.sample with get_notes := .ok [⟨1, "kept"⟩] } 7 rfl).2.2.1 ⟨(), rfl⟩).1,
   ((notes_refetch
      (State.sample { Actor.sample with get_notes := .ok [⟨1, "kept"⟩] } "" "")
      { Actor.sample with get_notes := .ok [⟨1, "kept"⟩] } 7 rfl).2.2.1 ⟨(), rfl⟩).2.1
      [⟨1, "kept"⟩] rfl⟩

/-! ## Transfer: amounts that are not doubles -/

/-- C2, counterexample: the external ledger is selected with an external balance
of `10 ^ 18` and the amount text is `1000000000000000001`, a positive integer
above that balance; `parseInt` reads it as `10 ^ 18`, the check passes, and
`transferTokens` issues `icrc_transfer` with the amount `10 ^ 18` and reports
success instead of "Insufficient balance". -/
theorem transferTokens_insufficient_balance_counterexample :
    decimalLiteral "1000000000000000001" = some 1000000000000000001 ∧
    (1000000000000000000 : Int) < 1000000000000000001 ∧
    (transferTokens Runtime.sample
      { State.sample Actor.sample "aaaaa-aa" "1000000000000000001" with
        transferType := .icrc
        icrcBalance := some 1000000000000000000 }).calls =
      [.icrc_transfer ⟨"aaaaa-aa"⟩ 1000000000000000000, .get_balance,
        .get_transaction_history, .get_icrc_balance] ∧
    (transferTokens Runtime.sample
      { State.sample Actor.sample "aaaaa-aa" "1000000000000000001" with
        transferType := .icrc
        icrcBalance := some 1000000000000000000 }).state.transferStatus =
      "ICRC transfer successful!" := by
  have hpre : PassesPreflight Runtime.sample
      { State.sample Actor.sample "aaaaa-aa" "1000000000000000001" with
        transferType := .icrc
        icrcBalance := some 1000000000000000000 }
      Actor.sample ⟨"aaaaa-aa"⟩ 1000000000000000000 :=
    ⟨⟨rfl, by decide, by decide, parseInt_rounds_down, by decide, by decide, by decide⟩, rfl⟩
  rw [transferTokens_of_ok Runtime.sample hpre rfl]
  exact ⟨by decide, by decide, by decide, by decide⟩

/-! ## Transfer: order of the pre-flight checks -/

/-- C20, counterexample: with the malformed recipient `not a principal!`, the
amount text `12abc`, which is not a positive integer, is not reported as an
invalid amount, and the amount `1000000000000000001` on an external balance of
`10 ^ 18` is not reported as insufficient: both requests pass checks b and d as
the code evaluates them and get the report of check e. -/
theorem transferTokens_preflight_order_counterexample :
    decimalLiteral "12abc" = none ∧
    (transferTokens (Runtime.rejecting "Invalid character \"!\"")
      (State.sample Actor.sample "not a principal!" "12abc")).state.transferStatus =
      "Transfer failed: Invalid character \"!\"" ∧
    decimalLiteral "1000000000000000001" = some 1000000000000000001 ∧
    (transferTokens (Runtime.rejecting "Invalid character \"!\"")
      { State.sample Actor.sample "not a principal!" "1000000000000000001" with
        transferType := .icrc
        icrcBalance := some 1000000000000000000 }).state.transferStatus =
      "Transfer failed: Invalid character \"!\"" := by
  have hchecks : PassesChecks
      { State.sample Actor.sample "not a principal!" "1000000000000000001" with
        transferType := .icrc
        icrcBalance := some 1000000000000000000 }
      Actor.sample 1000000000000000000 :=
    ⟨rfl, by decide, by decide, parseInt_rounds_down, by decide, by decide, by decide⟩
  refine ⟨by decide, by decide, by decide, ?_⟩
  rw [transferTokens_of_checks (Runtime.rejecting "Invalid character \"!\"") hchecks]
  decide

/-- C20, amended: with a bound actor, the pre-flight checks of `transferTokens`
are evaluated in the order a, b, c, d, e, where b and d are the checks the code
performs on the number that `parseInt` reads from the amount text (for a base-10
integer literal below `2 ^ 53`, the integer written). The first check that fails
decides the report, whatever the later checks would say (nothing is assumed
about them), and no remote call is made:
a blank recipient or amount gives "Please fill in all fields";
else an amount that `parseInt` reads as `NaN` or as a number `≤ 0` (in particular
a literal denoting an integer `≤ 0`) gives "Please enter a valid amount";
else the external ledger selected with `icrcBalance` absent gives "ICRC balance
not available. Please configure ICRC ledger.";
else an amount read as a number above the balance of the selected ledger gives
"Insufficient balance";
else a recipient on which `Principal.fromText` throws gives the report of the
`catch` block for the thrown message. -/
theorem transferTokens_preflight_order (rt : Runtime) (s : State) (actor : Actor)
    (hactor : s.actor = some actor) :
    (truthy (jsTrim s.transferTo) = false ∨ truthy (jsTrim s.transferAmount) = false →
      (transferTokens rt s).state.transferStatus = "Please fill in all fields" ∧
      (transferTokens rt s).calls = []) ∧
    (truthy (jsTrim s.transferTo) = true → truthy (jsTrim s.transferAmount) = true →
      ((parseInt s.transferAmount).isNaN = true ∨ (parseInt s.transferAmount).leZero = true ∨
        ∃ v, decimalLiteral s.transferAmount = some v ∧ v ≤ 0) →
      (transferTokens rt s).state.transferStatus = "Please enter a valid amount" ∧
      (transferTokens rt s).calls = []) ∧
    (∀ amount : Int, truthy (jsTrim s.transferTo) = true →
      (parseInt s.transferAmount = .fin amount ∨
        (decimalLiteral s.transferAmount = some amount ∧ amount < 2 ^ 53)) →
      0 < amount → s.transferType = .icrc → s.icrcBalance = none →
      (transferTokens rt s).state.transferStatus =
        "ICRC balance not available. Please configure ICRC ledger." ∧
      (transferTokens rt s).calls = []) ∧
    (∀ amount : Int, truthy (jsTrim s.transferTo) = true →
      (parseInt s.transferAmount = .fin amount ∨
        (decimalLiteral s.transferAmount = some amount ∧ amount < 2 ^ 53)) →
      0 < amount →
      ((s.transferType = .internal ∧ ∃ b, s.balance = .fin b ∧ b < amount) ∨
        (s.transferType = .icrc ∧ ∃ b, s.icrcBalance = some b ∧ b < amount)) →
      (transferTokens rt s).state.transferStatus = "Insufficient balance" ∧
      (transferTokens rt s).calls = []) ∧
    (∀ (amount : Int) (m : String), truthy (jsTrim s.transferTo) = true →
      (parseInt s.transferAmount = .fin amount ∨
        (decimalLiteral s.transferAmount = some amount ∧ amount < 2 ^ 53)) →
      0 < amount →
      ((s.transferType = .internal ∧ ∃ b, s.balance = .fin b ∧ amount ≤ b) ∨
        (s.transferType = .icrc ∧ ∃ b, s.icrcBalance = some b ∧ amount ≤ b)) →
      rt.fromText (jsTrim s.transferTo) = .error m →
      (transferTokens rt s).state.transferStatus = catchStatus m ∧
      (transferTokens rt s).calls = []) := by
  refine ⟨?_, ?_, ?_, ?_, ?_⟩
  · intro hblank
    unfold transferTokens
    rcases hblank with hb | hb <;> simp [hactor, hb]
  · intro hto hamount hbad
    have hrej :
        ((parseInt s.transferAmount).isNaN || (parseInt s.transferAmount).leZero) = true := by
      rcases hbad with hb | hb | ⟨v, hlit, hv⟩
      · simp [hb]
      · simp [hb]
      · simp [parseInt_leZero_of_decimalLiteral hlit hv]
    unfold transferTokens
    simp only [hactor, hto, hamount, hrej]
    simp
  · intro amount hto hreads hpos htype habsent
    have hparsed := parsed_of_reads hpos hreads
    have hamount := truthy_trim_of_parseInt hparsed
    have hnp : ¬ amount ≤ 0 := not_le.mpr hpos
    unfold transferTokens
    simp only [hactor, hto, hamount, hparsed, JSNumber.isNaN, JSNumber.leZero, htype, habsent]
    simp [hnp]
  · intro amount hto hreads hpos hexceeds
    rw [transferTokens_of_exceeds rt hactor hto (parsed_of_reads hpos hreads) hpos hexceeds]
    exact ⟨rfl, rfl⟩
  · intro amount m hto hreads hpos hwithin hthrows
    have hparsed := parsed_of_reads hpos hreads
    have hcovered : bigintGt amount (availableBalance s) = false := by
      rcases hwithin with ⟨ht, b, hb, hle⟩ | ⟨ht, b, hb, hle⟩
      · simp [availableBalance, ht, hb, bigintGt, not_lt.mpr hle]
      · simp [availableBalance, ht, hb, bigintGt, not_lt.mpr hle]
    have hledger : s.transferType = .icrc → s.icrcBalance ≠ none := by
      intro ht
      rcases hwithin with ⟨hi, -⟩ | ⟨-, b, hb, -⟩
      · rw [hi] at ht; cases ht
      · simp [hb]
    have hchecks : PassesChecks s actor amount :=
      ⟨hactor, hto, truthy_trim_of_parseInt hparsed, hparsed, hpos, hledger, hcovered⟩
    rw [transferTokens_of_checks rt hchecks]
    have hthrows1 : rt.fromText (jsTrim s.dispatching.transferTo) = .error m := hthrows
    simp [transferTry, hthrows1, settleTransfer]

/-- C20, witness: with the malformed recipient `not a principal!`, the amount
`abc` gives "Please enter a valid amount", the external ledger with no external
balance gives the ledger status, the amount 150 on a balance of 100 gives
"Insufficient balance" and the amount 50 gives the report of check e; a blank
recipient with the amount `abc` gives "Please fill in all fields". -/
theorem transferTokens_preflight_order_witness :
    (transferTokens (Runtime.rejecting "Invalid principal")
      (State.sample Actor.sample "  " "abc")).state.transferStatus =
      "Please fill in all fields" ∧
    (transferTokens (Runtime.rejecting "Invalid principal")
      (State.sample Actor.sample "not a principal!" "abc")).state.transferStatus =
      "Please enter a valid amount" ∧
    (transferTokens (Runtime.rejecting "Invalid principal")
      { State.sample Actor.sample "not a principal!" "150" with
        transferType := .icrc }).state.transferStatus =
      "ICRC balance not available. Please configure ICRC ledger." ∧
    (transferTokens (Runtime.rejecting "Invalid principal")
      (State.sample Actor.sample "not a principal!" "150")).state.transferStatus =
      "Insufficient balance" ∧
    (transferTokens (Runtime.rejecting "Invalid principal")
      (State.sample Actor.sample "not a principal!" "50")).state.transferStatus =
      "Invalid principal format" :=
  ⟨((transferTokens_preflight_order (Runtime.rejecting "Invalid principal")
      (State.sample Actor.sample "  " "abc") Actor.sample rfl).1 (Or.inl (by decide))).1,
   ((transferTokens_preflight_order (Runtime.rejecting "Invalid principal")
      (State.sample Actor.sample "not a principal!" "abc") Actor.sample rfl).2.1
      (by decide) (by decide) (Or.inl (by decide))).1,
   ((transferTokens_preflight_order (Runtime.rejecting "Invalid principal")
      { State.sample Actor.sample "not a principal!" "150" with transferType := .icrc }
      Actor.sample rfl).2.2.1 150 (by decide) (Or.inr ⟨by decide, by decide⟩) (by decide)
      rfl rfl).1,
   ((transferTokens_preflight_order (Runtime.rejecting "Invalid principal")
      (State.sample Actor.sample "not a principal!" "150") Actor.sample rfl).2.2.2.1 150
      (by decide) (Or.inr ⟨by decide, by decide⟩) (by decide)
      (Or.inl ⟨rfl, 100, rfl, by decide⟩)).1,
   (((transferTokens_preflight_order (Runtime.rejecting "Invalid principal")
      (State.sample Actor.sample "not a principal!" "50") Actor.sample rfl).2.2.2.2 50
      "Invalid principal" (by decide) (Or.inr ⟨by decide, by decide⟩) (by decide)
      (Or.inl ⟨rfl, 100, rfl, by decide⟩) rfl).1).trans (by decide)⟩

/-! ## Transfer: the dispatched call -/

/-- No call of the refresh is a transfer call. -/
theorem fetchTokenData_no_transfer (a : Actor) (s : State) :
    (fetchTokenData (some a) s).calls.filter RemoteCall.isTransfer = [] := by
  rw [fetchTokenData_calls]
  split <;> rfl

/-- The selected transfer call is a transfer call. -/
theorem transferCall_isTransfer (t : TransferType) (recipient : Principal) (amount : Int) :
    (transferCall t recipient amount).isTransfer = true := by
  unfold transferCall
  split <;> rfl

/-- A request that passes the pre-flight validation issues the selected transfer
call first, and no other transfer call, whatever the backend answers. -/
theorem transferTokens_transfer_calls (rt : Runtime) {s : State} {actor : Actor}
    {recipient : Principal} {amount : Int}
    (h : PassesPreflight rt s actor recipient amount) :
    (transferTokens rt s).calls.head? = some (transferCall s.transferType recipient amount) ∧
    (transferTokens rt s).calls.filter RemoteCall.isTransfer =
      [transferCall s.transferType recipient amount] := by
  cases hreply : transferReply actor s.transferType recipient amount with
  | error m =>
    rw [transferTokens_of_thrown rt h (Or.inl hreply)]
    simp [transferCall_isTransfer]
  | ok result =>
    cases result with
    | Ok =>
      rw [transferTokens_of_ok rt h hreply]
      simp [transferCall_isTransfer, fetchTokenData_no_transfer]
    | Err error =>
      rw [transferTokens_of_err rt h hreply]
      simp [transferCall_isTransfer]
    | text t =>
      rw [transferTokens_of_thrown rt h (Or.inr ⟨t, hreply, rfl⟩)]
      simp [transferCall_isTransfer]

/-- The status a request that passes the pre-flight validation ends with, by
what awaiting the selected transfer call yields: the success status for an `Ok`
wrapper, the status of the error for an `Err` wrapper (and no further call), the
report of the `catch` block when the call throws (and no further call). -/
theorem transferTokens_of_reply (rt : Runtime) {s : State} {actor : Actor}
    {recipient : Principal} {amount : Int}
    (h : PassesPreflight rt s actor recipient amount) :
    (transferReply actor s.transferType recipient amount = .ok .Ok →
      (transferTokens rt s).state.transferStatus =
        s.transferType.toUpperCase ++ " transfer successful!") ∧
    (∀ e, transferReply actor s.transferType recipient amount = .ok (.Err e) →
      (transferTokens rt s).state.transferStatus = errStatus e ∧
      (transferTokens rt s).calls = [transferCall s.transferType recipient amount]) ∧
    (∀ m, transferReply actor s.transferType recipient amount = .error m →
      (transferTokens rt s).state.transferStatus = catchStatus m ∧
      (transferTokens rt s).calls = [transferCall s.transferType recipient amount]) := by
  refine ⟨?_, ?_, ?_⟩
  · intro hreply
    rw [transferTokens_of_ok rt h hreply]
    exact (fetchTokenData_frame _ _).1
  · intro e hreply
    rw [transferTokens_of_err rt h hreply]
    exact ⟨rfl, rfl⟩
  · intro m hreply
    rw [transferTokens_of_thrown rt h (Or.inl hreply)]
    exact ⟨rfl, rfl⟩

/-- C21, counterexample: the external ledger is selected and the recipient is
well formed. With the amount text `9007199254740995` on an external balance of
9007199254740995 (equality), the request is a positive integer within the
balance, yet no transfer call is issued and the status is "Insufficient
balance": `parseInt` reads the text as 9007199254740996. With the amount text
`1000000000000000001` on an external balance of `2 * 10 ^ 18`, the transfer call is
issued with the amount `10 ^ 18`, not the amount written. -/
theorem transferTokens_dispatch_counterexample :
    decimalLiteral "9007199254740995" = some 9007199254740995 ∧
    (transferTokens Runtime.sample
      { State.sample Actor.sample "aaaaa-aa" "9007199254740995" with
        transferType := .icrc
        icrcBalance := some 9007199254740995 }).calls = [] ∧
    (transferTokens Runtime.sample
      { State.sample Actor.sample "aaaaa-aa" "9007199254740995" with
        transferType := .icrc
        icrcBalance := some 9007199254740995 }).state.transferStatus =
      "Insufficient balance" ∧
    decimalLiteral "1000000000000000001" = some 1000000000000000001 ∧
    (transferTokens Runtime.sample
      { State.sample Actor.sample "aaaaa-aa" "1000000000000000001" with
        transferType := .icrc
        icrcBalance := some 2000000000000000000 }).calls.filter RemoteCall.isTransfer =
      [.icrc_transfer ⟨"aaaaa-aa"⟩ 1000000000000000000] := by
  have hexceeds : transferTokens Runtime.sample
      { State.sample Actor.sample "aaaaa-aa" "9007199254740995" with
        transferType := .icrc
        icrcBalance := some 9007199254740995 } =
      ⟨{ ({ State.sample Actor.sample "aaaaa-aa" "9007199254740995" with
            transferType := .icrc
            icrcBalance := some 9007199254740995 } : State) with
          transferStatus := "Insufficient balance" }, [], none⟩ :=
    transferTokens_of_exceeds Runtime.sample rfl (by decide) parseInt_rounds_up (by decide)
      (Or.inr ⟨rfl, 9007199254740995, rfl, by decide⟩)
  have hpre : PassesPreflight Runtime.sample
      { State.sample Actor.sample "aaaaa-aa" "1000000000000000001" with
        transferType := .icrc
        icrcBalance := some 2000000000000000000 }
      Actor.sample ⟨"aaaaa-aa"⟩ 1000000000000000000 :=
    ⟨⟨rfl, by decide, by decide, parseInt_rounds_down, by decide, by decide, by decide⟩, rfl⟩
  refine ⟨by decide, ?_, ?_, by decide, ?_⟩
  · rw [hexceeds]
  · rw [hexceeds]
  · rw [transferTokens_of_ok Runtime.sample hpre rfl]
    decide

/-- C21, amended: for every state with a bound actor, a non-blank recipient
that parses to the principal `recipient`, and an amount text that `parseInt`
reads as a positive integer `amount` (for a base-10 integer literal below
`2 ^ 53`, the integer written) less than or equal to the balance of the selected
ledger (equality included), `transferTokens` issues exactly one transfer call,
as its first call: `icrc_transfer recipient amount` when the external ledger is
selected and `transfer recipient amount` otherwise, never both. What that call
of the actor yields decides the outcome: an `Ok` wrapper gives the success
status of the selected ledger, an `Err` wrapper the status of its error and no
further call, a thrown error the report of the `catch` block and no further
call. -/
theorem transferTokens_dispatch (rt : Runtime) (s : State) (actor : Actor)
    (recipient : Principal) (amount : Int)
    (hactor : s.actor = some actor)
    (hto : truthy (jsTrim s.transferTo) = true)
    (hreads : parseInt s.transferAmount = .fin amount ∨
      (decimalLiteral s.transferAmount = some amount ∧ amount < 2 ^ 53))
    (hpos : 0 < amount)
    (hwithin : (s.transferType = .internal ∧ ∃ b, s.balance = .fin b ∧ amount ≤ b) ∨
      (s.transferType = .icrc ∧ ∃ b, s.icrcBalance = some b ∧ amount ≤ b))
    (hwell : rt.fromText (jsTrim s.transferTo) = .ok recipient) :
    (s.transferType = .icrc →
      (transferTokens rt s).calls.head? = some (.icrc_transfer recipient amount) ∧
      (transferTokens rt s).calls.filter RemoteCall.isTransfer =
        [.icrc_transfer recipient amount] ∧
      (actor.icrc_transfer recipient amount = .ok .Ok →
        (transferTokens rt s).state.transferStatus = "ICRC transfer successful!") ∧
      (∀ e, actor.icrc_transfer recipient amount = .ok (.Err e) →
        (transferTokens rt s).state.transferStatus = errStatus e ∧
        (transferTokens rt s).calls = [.icrc_transfer recipient amount]) ∧
      (∀ m, actor.icrc_transfer recipient amount = .error m →
        (transferTokens rt s).state.transferStatus = catchStatus m ∧
        (transferTokens rt s).calls = [.icrc_transfer recipient amount])) ∧
    (s.transferType = .internal →
      (transferTokens rt s).calls.head? = some (.transfer recipient amount) ∧
      (transferTokens rt s).calls.filter RemoteCall.isTransfer =
        [.transfer recipient amount] ∧
      (actor.transfer recipient amount = .ok .Ok →
        (transferTokens rt s).state.transferStatus = "INTERNAL transfer successful!") ∧
      (∀ e, actor.transfer recipient amount = .ok (.Err e) →
        (transferTokens rt s).state.transferStatus = errStatus e ∧
        (transferTokens rt s).calls = [.transfer recipient amount]) ∧
      (∀ m, actor.transfer recipient amount = .error m →
        (transferTokens rt s).state.transferStatus = catchStatus m ∧
        (transferTokens rt s).calls = [.transfer recipient amount])) := by
  have hparsed := parsed_of_reads hpos hreads
  have hcovered : bigintGt amount (availableBalance s) = false := by
    rcases hwithin with ⟨ht, b, hb, hle⟩ | ⟨ht, b, hb, hle⟩
    · simp [availableBalance, ht, hb, bigintGt, not_lt.mpr hle]
    · simp [availableBalance, ht, hb, bigintGt, not_lt.mpr hle]
  have hledger : s.transferType = .icrc → s.icrcBalance ≠ none := by
    intro ht
    rcases hwithin with ⟨hi, -⟩ | ⟨-, b, hb, -⟩
    · rw [hi] at ht; cases ht
    · simp [hb]
  have hpre : PassesPreflight rt s actor recipient amount :=
    ⟨⟨hactor, hto, truthy_trim_of_parseInt hparsed, hparsed, hpos, hledger, hcovered⟩, hwell⟩
  have hcalls := transferTokens_transfer_calls rt hpre
  have hreply := transferTokens_of_reply rt hpre
  refine ⟨?_, ?_⟩
  · intro ht
    have hcall : transferCall s.transferType recipient amount =
        .icrc_transfer recipient amount := by simp [transferCall, ht]
    have hans : transferReply actor s.transferType recipient amount =
        actor.icrc_transfer recipient amount := by simp [transferReply, ht]
    have hname : s.transferType.toUpperCase ++ " transfer successful!" =
        "ICRC transfer successful!" := by rw [ht]; decide
    rw [hcall, hans, hname] at hreply
    rw [hcall] at hcalls
    exact ⟨hcalls.1, hcalls.2, hreply.1, hreply.2.1, hreply.2.2⟩
  · intro ht
    have hcall : transferCall s.transferType recipient amount =
        .transfer recipient amount := by simp [transferCall, ht]
    have hans : transferReply actor s.transferType recipient amount =
        actor.transfer recipient amount := by simp [transferReply, ht]
    have hname : s.transferType.toUpperCase ++ " transfer successful!" =
        "INTERNAL transfer successful!" := by rw [ht]; decide
    rw [hcall, hans, hname] at hreply
    rw [hcall] at hcalls
    exact ⟨hcalls.1, hcalls.2, hreply.1, hreply.2.1, hreply.2.2⟩

/-- C21, witness: amount 100 on an internal balance of 100 (equality), and
amount 20 on an external balance of 20; both calls are answered `Ok`. -/
theorem transferTokens_dispatch_witness :
    (transferTokens Runtime.sample
      (State.sample Actor.sample " aaaaa-aa " "100")).calls.filter RemoteCall.isTransfer =
      [.transfer ⟨"aaaaa-aa"⟩ 100] ∧
    (transferTokens Runtime.sample
      (State.sample Actor.sample " aaaaa-aa " "100")).state.transferStatus =
      "INTERNAL transfer successful!" ∧
    (transferTokens Runtime.sample
      { State.sample Actor.sample "aaaaa-aa" "20" with
        transferType := .icrc
        icrcBalance := some 20 }).calls.filter RemoteCall.isTransfer =
      [.icrc_transfer ⟨"aaaaa-aa"⟩ 20] ∧
    (transferTokens Runtime.sample
      { State.sample Actor.sample "aaaaa-aa" "20" with
        transferType := .icrc
        icrcBalance := some 20 }).state.transferStatus =
      "ICRC transfer successful!" :=
  ⟨((transferTokens_dispatch Runtime.sample (State.sample Actor.sample " aaaaa-aa " "100")
      Actor.sample ⟨"aaaaa-aa"⟩ 100 rfl (by decide) (Or.inr ⟨by decide, by decide⟩) (by decide)
      (Or.inl ⟨rfl, 100, rfl, by decide⟩) rfl).2 rfl).2.1,
   ((transferTokens_dispatch Runtime.sample (State.sample Actor.sample " aaaaa-aa " "100")
      Actor.sample ⟨"aaaaa-aa"⟩ 100 rfl (by decide) (Or.inl (by decide)) (by decide)
      (Or.inl ⟨rfl, 100, rfl, by decide⟩) rfl).2 rfl).2.2.1 rfl,
   ((transferTokens_dispatch Runtime.sample
      { State.sample Actor.sample "aaaaa-aa" "20" with
        transferType := .icrc
        icrcBalance := some 20 }
      Actor.sample ⟨"aaaaa-aa"⟩ 20 rfl (by decide) (Or.inr ⟨by decide, by decide⟩) (by decide)
      (Or.inr ⟨rfl, 20, rfl, by decide⟩) rfl).1 rfl).2.1,
   ((transferTokens_dispatch Runtime.sample
      { State.sample Actor.sample "aaaaa-aa" "20" with
        transferType := .icrc
        icrcBalance := some 20 }
      Actor.sample ⟨"aaaaa-aa"⟩ 20 rfl (by decide) (Or.inr ⟨by decide, by decide⟩) (by decide)
      (Or.inr ⟨rfl, 20, rfl, by decide⟩) rfl).1 rfl).2.2.1 rfl⟩

/-! ## Refresh: the ledger configuration is not part of it -/

/-- The refresh never asks for the ledger configuration and never writes
`icrcLedgerCanisterId`. -/
theorem fetchTokenData_no_config (backendActor : Option Actor) (s : State) :
    RemoteCall.get_icrc_ledger_canister_id ∉ (fetchTokenData backendActor s).calls ∧
    (fetchTokenData backendActor s).state.icrcLedgerCanisterId = s.icrcLedgerCanisterId := by
  unfold fetchTokenData
  repeat' split
  all_goals exact ⟨by simp, rfl⟩

/-- No call of `transferTokens` asks for the ledger configuration. -/
theorem transferTokens_no_config (rt : Runtime) (s : State) :
    RemoteCall.get_icrc_ledger_canister_id ∉ (transferTokens rt s).calls := by
  have hcall : ∀ t recipient amount,
      RemoteCall.get_icrc_ledger_canister_id ≠ transferCall t recipient amount := by
    intro t recipient amount
    unfold transferCall
    split <;> simp
  have hinterpret : ∀ t result,
      RemoteCall.get_icrc_ledger_canister_id ∉ (interpretResult rt t result).calls := by
    intro t result
    unfold interpretResult
    repeat' split
    all_goals first
      | exact (fetchTokenData_no_config _ _).1
      | simp
  have htry : ∀ actor t amount,
      RemoteCall.get_icrc_ledger_canister_id ∉ (transferTry rt actor t amount).calls := by
    intro actor t amount
    unfold transferTry
    repeat' split
    · simp
    · simp [hcall]
    · simp only [List.mem_cons, not_or]
      exact ⟨hcall _ _ _, hinterpret _ _⟩
  have hsettle : ∀ r : Outcome, (settleTransfer r).calls = r.calls := by
    intro r
    unfold settleTransfer
    split <;> rfl
  unfold transferTokens
  dsimp only
  repeat' split
  all_goals first
    | simp
    | (rw [hsettle]; exact htry _ _ _)

/-- No call of `configureIcrcLedger` asks for the ledger configuration. -/
theorem configureIcrcLedger_no_config (rt : Runtime) (s : State) :
    RemoteCall.get_icrc_ledger_canister_id ∉ (configureIcrcLedger rt s).calls := by
  have htry : ∀ actor t,
      RemoteCall.get_icrc_ledger_canister_id ∉ (configureTry rt actor t).calls := by
    intro actor t
    unfold configureTry
    repeat' split
    all_goals first
      | (simp only [List.mem_cons, not_or]
         exact ⟨by simp, (fetchTokenData_no_config _ _).1⟩)
      | simp
  have hsettle : ∀ r : Outcome, (settleConfigure r).calls = r.calls := by
    intro r
    unfold settleConfigure
    split <;> rfl
  unfold configureIcrcLedger
  repeat' split
  all_goals first
    | simp
    | (rw [hsettle]; exact htry _ _)

/-- C22, counterexample: the backend holds the external ledger
`ryjl3-tyaaa-aaaaa-aaaba-cai`; a refresh issues three calls, none of them
`get_icrc_ledger_canister_id`, and so does the refresh that follows a successful
transfer; `icrcLedgerCanisterId` stays empty. -/
theorem fetchTokenData_ledger_config_counterexample :
    (fetchTokenData
      (some { Actor.sample with
        get_icrc_ledger_canister_id := .ok (some ⟨"ryjl3-tyaaa-aaaaa-aaaba-cai"⟩) })
      (State.sample Actor.sample "" "")).calls =
      [.get_balance, .get_transaction_history, .get_icrc_balance] ∧
    (fetchTokenData
      (some { Actor.sample with
        get_icrc_ledger_canister_id := .ok (some ⟨"ryjl3-tyaaa-aaaaa-aaaba-cai"⟩) })
      (State.sample Actor.sample "" "")).state.icrcLedgerCanisterId = "" ∧
    (transferTokens Runtime.sample
      (State.sample
        { Actor.sample with
          get_icrc_ledger_canister_id := .ok (some ⟨"ryjl3-tyaaa-aaaaa-aaaba-cai"⟩) }
        "aaaaa-aa" "50")).calls =
      [.transfer ⟨"aaaaa-aa"⟩ 50, .get_balance, .get_transaction_history, .get_icrc_balance] ∧
    (transferTokens Runtime.sample
      (State.sample
        { Actor.sample with
          get_icrc_ledger_canister_id := .ok (some ⟨"ryjl3-tyaaa-aaaaa-aaaba-cai"⟩) }
        "aaaaa-aa" "50")).state.icrcLedgerCanisterId = "" := by
  decide

/-- C22, amended: no run of the refresh `fetchTokenData` issues
`get_icrc_ledger_canister_id` or writes `icrcLedgerCanisterId`, and neither
`transferTokens` nor `configureIcrcLedger`, which trigger the refresh, issues
that call. The ledger configuration is fetched by `checkIcrcLedgerConfig`, with
the single call `get_icrc_ledger_canister_id`; when an external ledger
identifier is present it records its text form in `icrcLedgerCanisterId`, and
otherwise leaves that cell as it was. `initAuth` runs it after the refresh when
the identity is authenticated. -/
theorem ledger_config_fetch :
    (∀ (backendActor : Option Actor) (s : State),
      RemoteCall.get_icrc_ledger_canister_id ∉ (fetchTokenData backendActor s).calls ∧
      (fetchTokenData backendActor s).state.icrcLedgerCanisterId = s.icrcLedgerCanisterId) ∧
    (∀ (rt : Runtime) (s : State),
      RemoteCall.get_icrc_ledger_canister_id ∉ (transferTokens rt s).calls ∧
      RemoteCall.get_icrc_ledger_canister_id ∉ (configureIcrcLedger rt s).calls) ∧
    (∀ (actor : Actor) (s : State),
      (checkIcrcLedgerConfig (some actor) s).calls = [.get_icrc_ledger_canister_id] ∧
      (∀ ledger, actor.get_icrc_ledger_canister_id = .ok (some ledger) →
        (checkIcrcLedgerConfig (some actor) s).state.icrcLedgerCanisterId = ledger.toText) ∧
      (actor.get_icrc_ledger_canister_id = .ok none →
        (checkIcrcLedgerConfig (some actor) s).state.icrcLedgerCanisterId =
          s.icrcLedgerCanisterId)) ∧
    (∀ (p : Provider) (s : State) (client : AuthClient) (a : Actor),
      p.session = some (client, true, a) →
      (initAuth p s).calls =
        .get_notes :: (fetchTokenData (some a) s).calls ++ [.get_icrc_ledger_canister_id]) := by
  refine ⟨fetchTokenData_no_config, ?_, ?_, ?_⟩
  · intro rt s
    exact ⟨transferTokens_no_config rt s, configureIcrcLedger_no_config rt s⟩
  · intro actor s
    refine ⟨checkIcrcLedgerConfig_calls actor s, ?_, ?_⟩
    · intro ledger h
      simp [checkIcrcLedgerConfig, h]
    · intro h
      simp [checkIcrcLedgerConfig, h]
  · intro p s client a h
    rw [initAuth_of_authenticated p s client a h]
    simp only [fetchNotes_calls, checkIcrcLedgerConfig_calls, fetchTokenData_calls]
    rfl

/-! ## The busy flag -/

/-- After the `catch` block of `transferTokens` the busy flag is false. -/
theorem settleTransfer_isLoading (r : Outcome) : (settleTransfer r).state.isLoading = false := by
  unfold settleTransfer
  split <;> rfl

/-- After the `catch` block of `configureIcrcLedger` the busy flag is false. -/
theorem settleConfigure_isLoading (r : Outcome) :
    (settleConfigure r).state.isLoading = false := by
  unfold settleConfigure
  split <;> rfl

/-- C23: starting from a state with the busy flag false, every run of
`transferTokens`, `configureIcrcLedger`, `addNote`, `deleteNote`, `updateNote`,
`searchNotes` and `initAuth` ends with the busy flag false, whatever the runtime,
the provider and the backend answer (early return, success, `Err` result or a
thrown error carrying a message). -/
theorem busy_flag_cleared (rt : Runtime) (p : Provider) (s : State) (id : Nat)
    (hidle : s.isLoading = false) :
    (transferTokens rt s).state.isLoading = false ∧
    (configureIcrcLedger rt s).state.isLoading = false ∧
    (addNote s).state.isLoading = false ∧
    (deleteNote id s).state.isLoading = false ∧
    (updateNote s).state.isLoading = false ∧
    (searchNotes s).state.isLoading = false ∧
    (initAuth p s).state.isLoading = false := by
  refine ⟨?_, ?_, ?_, ?_, ?_, ?_, ?_⟩
  · unfold transferTokens
    dsimp only
    repeat' split
    all_goals first
      | exact hidle
      | exact settleTransfer_isLoading _
  · unfold configureIcrcLedger
    repeat' split
    all_goals first
      | exact hidle
      | exact settleConfigure_isLoading _
  · unfold addNote
    dsimp only
    repeat' split
    all_goals first
      | exact hidle
      | rfl
  · unfold deleteNote
    dsimp only
    repeat' split
    all_goals first
      | exact hidle
      | rfl
  · unfold updateNote
    dsimp only
    repeat' split
    all_goals first
      | exact hidle
      | rfl
  · unfold searchNotes
    dsimp only
    repeat' split
    all_goals first
      | exact hidle
      | rfl
  · unfold initAuth
    dsimp only
    repeat' split
    all_goals rfl

/-- C23, witness: from the idle sample state, a transfer whose call throws, a
ledger configuration rejected by `Principal.fromText`, a search and `initAuth`
all end with the busy flag false. -/
theorem busy_flag_cleared_witness :
    (transferTokens (Runtime.rejecting "Invalid character")
      (State.sample { Actor.sample with transfer := fun _ _ => .error "Network unreachable" }
        "aaaaa-aa" "50")).state.isLoading = false ∧
    (configureIcrcLedger (Runtime.rejecting "Invalid character")
      (State.sample { Actor.sample with transfer := fun _ _ => .error "Network unreachable" }
        "aaaaa-aa" "50")).state.isLoading = false ∧
    (searchNotes
      (State.sample { Actor.sample with transfer := fun _ _ => .error "Network unreachable" }
        "aaaaa-aa" "50")).state.isLoading = false ∧
    (initAuth (Provider.sample true)
      (State.sample { Actor.sample with transfer := fun _ _ => .error "Network unreachable" }
        "aaaaa-aa" "50")).state.isLoading = false :=
  ⟨(busy_flag_cleared (Runtime.rejecting "Invalid character") (Provider.sample true)
      (State.sample { Actor.sample with transfer := fun _ _ => .error "Network unreachable" }
        "aaaaa-aa" "50") 7 rfl).1,
   (busy_flag_cleared (Runtime.rejecting "Invalid character") (Provider.sample true)
      (State.sample { Actor.sample with transfer := fun _ _ => .error "Network unreachable" }
        "aaaaa-aa" "50") 7 rfl).2.1,
   (busy_flag_cleared (Runtime.rejecting "Invalid character") (Provider.sample true)
      (State.sample { Actor.sample with transfer := fun _ _ => .error "Network unreachable" }
        "aaaaa-aa" "50") 7 rfl).2.2.2.2.2.1,
   (busy_flag_cleared (Runtime.rejecting "Invalid character") (Provider.sample true)
      (State.sample { Actor.sample with transfer := fun _ _ => .error "Network unreachable" }
        "aaaaa-aa" "50") 7 rfl).2.2.2.2.2.2⟩

/-! ## Formatting of principals -/

/-- The three code units of the text `...`. -/
theorem utf16_dots : utf16 "..." = [46, 46, 46] := by
  decide

/-- The first ten code units of a text longer than ten. -/
theorem jsSlice_first_ten (s : CodeUnits) (h : 10 ≤ s.length) :
    jsSlice s 0 (some 10) = s.take 10 := by
  have h1 : min 10 s.length = 10 := Nat.min_eq_left h
  simp [jsSlice, sliceIndex, h1]

/-- The last six code units of a text longer than six. -/
theorem jsSlice_last_six (s : CodeUnits) (h : 6 ≤ s.length) :
    jsSlice s (-6) none = s.drop (s.length - 6) := by
  have h1 : ((s.length : Int) + -6).toNat = s.length - 6 := by omega
  have h2 : (s.drop (s.length - 6)).length = 6 := by
    rw [List.length_drop]
    omega
  have h3 : s.length - (s.length - 6) = 6 := by omega
  simp only [jsSlice, sliceIndex, h1, h3]
  simp only [show ((-6 : Int) < 0) from by decide, if_true]
  rw [h3]
  exact List.take_of_length_le (le_of_eq h2)

/-- C24: `formatPrincipal` returns its input unchanged for every text of at most
20 code units; for every longer text it returns the first 10 code units, then
`...`, then the last 6 code units, 19 code units in all; hence its output never
exceeds 20 code units and `formatPrincipal` is idempotent. -/
theorem formatPrincipal_spec :
    (∀ s : CodeUnits, s.length ≤ 20 → formatPrincipal s = s) ∧
    (∀ s : CodeUnits, 20 < s.length →
      formatPrincipal s = s.take 10 ++ utf16 "..." ++ s.drop (s.length - 6) ∧
      (formatPrincipal s).length = 19) ∧
    (∀ s : CodeUnits, (formatPrincipal s).length ≤ 20) ∧
    (∀ s : CodeUnits, formatPrincipal (formatPrincipal s) = formatPrincipal s) := by
  have hshort : ∀ s : CodeUnits, s.length ≤ 20 → formatPrincipal s = s := by
    intro s h
    simp [formatPrincipal, not_lt.mpr h]
  have hlong : ∀ s : CodeUnits, 20 < s.length →
      formatPrincipal s = s.take 10 ++ utf16 "..." ++ s.drop (s.length - 6) ∧
      (formatPrincipal s).length = 19 := by
    intro s h
    have heq : formatPrincipal s = s.take 10 ++ utf16 "..." ++ s.drop (s.length - 6) := by
      simp only [formatPrincipal, gt_iff_lt, h, if_true]
      rw [jsSlice_first_ten s (by omega), jsSlice_last_six s (by omega)]
    refine ⟨heq, ?_⟩
    rw [heq, utf16_dots]
    simp only [List.length_append, List.length_take, List.length_drop, List.length_cons,
      List.length_nil]
    omega
  have hbound : ∀ s : CodeUnits, (formatPrincipal s).length ≤ 20 := by
    intro s
    by_cases h : 20 < s.length
    · rw [(hlong s h).2]
      decide
    · rw [hshort s (not_lt.mp h)]
      exact not_lt.mp h
  exact ⟨hshort, hlong, hbound, fun s => hshort _ (hbound s)⟩

/-- C24, witness: the canister id `rrkah-fqaaa-aaaaa-aaaaq-cai` (27 code units)
is shortened to `rrkah-fqaa...aq-cai`, and the anonymous principal `2vxsx-fae`
is left as it is. -/
theorem formatPrincipal_spec_witness :
    formatPrincipal (utf16 "rrkah-fqaaa-aaaaa-aaaaq-cai") = utf16 "rrkah-fqaa...aq-cai" ∧
    formatPrincipal (utf16 "2vxsx-fae") = utf16 "2vxsx-fae" :=
  ⟨((formatPrincipal_spec.2.1 (utf16 "rrkah-fqaaa-aaaaa-aaaaq-cai") (by decide)).1).trans
      (by decide),
   formatPrincipal_spec.1 (utf16 "2vxsx-fae") (by decide)⟩

end IcNotes
